import Mathlib

/-!
# IBC connection query commands

Shallow embedding of `x/ibc/03-connection/client/cli/query.go`: the helpers
`defaultPath` and `defaultBase` and the three query commands `connection`,
`consensus-state` and `header`, followed by theorems about them.

Conventions of the embedding.

* Go `[]byte` and `string` are byte lists; `[]byte(s)` keeps the bytes.
* Go `int64` values are integers; the result of an `int64` operation is wrapped
  into the signed 64-bit range, and `uint64(x)` reduces modulo `2^64`.
* A command body runs in `CLI`: it may return an error or stop with a runtime
  panic, and it leaves a record of the lookups it performed and of the bytes it
  wrote to standard output.
* A Go pointer that may be `nil` is an `Option`; dereferencing `nil` is a runtime
  panic.
* Functions of other packages whose code is not part of this package
  (`tmtypes.NewValidatorSet`, `codec.MustMarshalJSONIndent`, the RPC client, the
  connection store query) are parameters.  `tmtypes.NewValidatorSet` panics on the
  validator lists it rejects, so its parameter is a partial function.
-/

namespace Ibc

/-- Go byte slice. -/
abbrev Bytes := List UInt8

/-- Go string: an immutable sequence of bytes. -/
abbrev GoString := List UInt8

/-- Bytes of a Go string literal (UTF-8). -/
def lit (s : String) : GoString := s.toUTF8.data.toList

/-- Go conversion `[]byte(s)`. -/
def bytesOf (s : GoString) : Bytes := s

/-- Reduction of an integer into the range of `int64` (two's complement). -/
def wrapInt64 (x : Int) : Int := (x + 2 ^ 63) % 2 ^ 64 - 2 ^ 63

/-- Go `a - b` on `int64`. -/
def subInt64 (a b : Int) : Int := wrapInt64 (a - b)

/-- Go conversion `uint64(x)` of an `int64`. -/
def uint64 (x : Int) : Nat := (x % 2 ^ 64).toNat

/-- Predicate: the integer is representable as an `int64`. -/
def IsInt64 (x : Int) : Prop := -2 ^ 63 ≤ x ∧ x < 2 ^ 63

instance (x : Int) : Decidable (IsInt64 x) := by
  unfold IsInt64
  infer_instance

/-- Go `error` values seen by the commands. -/
inductive Error where
  /-- an error reported by the RPC client or by the store query -/
  | rpc (msg : String)
  /-- cobra: "accepts %d arg(s), received %d" -/
  | exactArgs (accepts received : Nat)
deriving DecidableEq, Repr

/-! ## Types of the consensus engine (`tmtypes`, `ctypes`, `abci`) -/

/-- `tmtypes.Validator`. -/
structure tmtypes.Validator where
  Address : Bytes
  PubKey : Bytes
  VotingPower : Int
  ProposerPriority : Int
deriving DecidableEq, Repr

/-- `tmtypes.ValidatorSet`. -/
structure tmtypes.ValidatorSet where
  Validators : List tmtypes.Validator
  Proposer : Option tmtypes.Validator
  totalVotingPower : Int
deriving DecidableEq, Repr

/-- `tmtypes.Header`: the fields the commands read, and the remaining fields
    kept as one block of bytes. -/
structure tmtypes.Header where
  ChainID : GoString
  Height : Int
  AppHash : Bytes
  Rest : Bytes
deriving DecidableEq, Repr

/-- `tmtypes.SignedHeader`: the embedded pointers `*Header` and `*Commit` (the
    signatures); either may be `nil`. -/
structure tmtypes.SignedHeader where
  Header : Option tmtypes.Header
  Commit : Option Bytes
deriving DecidableEq, Repr

/-- `ctypes.ResultCommit`, the answer of `node.Commit`. -/
structure ctypes.ResultCommit where
  SignedHeader : tmtypes.SignedHeader
  CanonicalCommit : Bool
deriving DecidableEq, Repr

/-- `ctypes.ResultValidators`, the answer of `node.Validators`. -/
structure ctypes.ResultValidators where
  BlockHeight : Int
  Validators : List tmtypes.Validator
deriving DecidableEq, Repr

/-- `abci.ResponseInfo`. -/
structure abci.ResponseInfo where
  Data : GoString
  LastBlockHeight : Int
  LastBlockAppHash : Bytes
deriving DecidableEq, Repr

/-- `ctypes.ResultABCIInfo`, the answer of `node.ABCIInfo`. -/
structure ctypes.ResultABCIInfo where
  Response : abci.ResponseInfo
deriving DecidableEq, Repr

/-- The RPC client returned by `ctx.GetNode()`: the three methods the commands call. -/
structure Node where
  ABCIInfo : Except Error ctypes.ResultABCIInfo
  Commit : Int → Except Error ctypes.ResultCommit
  Validators : Int → Except Error ctypes.ResultValidators

/-! ## Types of the IBC packages -/

/-- Modelled from the spec: `merkle.Path` of package `23-commitment/merkle`, whose
    declaration is not in this package.  A commitment path is a sequence of
    byte-string segments plus a fixed prefix. -/
structure merkle.Path where
  KeyPath : List Bytes
  KeyPrefix : Bytes
deriving DecidableEq, Repr

/-- Modelled from the spec: `merkle.NewPath` of package `23-commitment/merkle`, whose
    code is not in this package.  It builds the path from its segments and its prefix. -/
def merkle.NewPath (keypath : List Bytes) (pfx : Bytes) : merkle.Path :=
  { KeyPath := keypath, KeyPrefix := pfx }

/-- Modelled from the spec: `merkle.Root` of package `23-commitment/merkle`, whose
    declaration is not in this package.  A root is a merkle root digest. -/
structure merkle.Root where
  Hash : Bytes
deriving DecidableEq, Repr

/-- Modelled from the spec: `merkle.NewRoot` of package `23-commitment/merkle`, whose
    code is not in this package.  It wraps the committed state hash. -/
def merkle.NewRoot (hash : Bytes) : merkle.Root := { Hash := hash }

/-- `merkle.Proof`, returned next to a record by the store query and dropped by
    the `connection` command. -/
structure merkle.Proof where
  Data : Bytes
deriving DecidableEq, Repr

/-- `tendermint.ConsensusState` of package `02-client/tendermint`, with the fields of
    the composite literal in `GetCmdQueryConsensusState`. -/
structure tendermint.ConsensusState where
  ChainID : GoString
  Height : Nat
  Root : merkle.Root
  NextValidatorSet : tmtypes.ValidatorSet
deriving DecidableEq, Repr

/-- `tendermint.Header` of package `02-client/tendermint`, with the fields of the
    composite literal in `GetCmdQueryHeader`. -/
structure tendermint.Header where
  SignedHeader : tmtypes.SignedHeader
  ValidatorSet : tmtypes.ValidatorSet
  NextValidatorSet : tmtypes.ValidatorSet
deriving DecidableEq, Repr

/-- Handshake state of a connection. -/
inductive connection.State where
  | UNINITIALIZED
  | INIT
  | TRYOPEN
  | OPEN
deriving DecidableEq, Repr

/-- Modelled from the spec: `connection.Connection` of package `03-connection`, whose
    declaration is not in this package.  The bidirectional handshake record. -/
structure connection.Connection where
  ConnectionID : GoString
  ClientID : GoString
  CounterpartyConnectionID : GoString
  CounterpartyClientID : GoString
  State : connection.State
  Version : GoString
deriving DecidableEq, Repr

/-- The `interface{}` argument of `codec.MustMarshalJSONIndent`: the three values
    the commands encode. -/
inductive Payload where
  | connection (c : connection.Connection)
  | consensusState (s : tendermint.ConsensusState)
  | header (h : tendermint.Header)
deriving DecidableEq, Repr

/-- `codec.Codec`: the commands use the codec only through
    `codec.MustMarshalJSONIndent(cdc, obj)`, the indented JSON encoding of `obj`. -/
structure codec.Codec where
  MustMarshalJSONIndent : Payload → Bytes

/-- Modelled from the spec: `state.Base` of package `store/state`, whose declaration is
    not in this package.  A base is a namespace of the store: the codec, the store
    key (`nil` in this file) and the key prefix of the namespace. -/
structure state.Base where
  cdc : codec.Codec
  storeKey : Option GoString
  KeyPrefix : Bytes

/-- Modelled from the spec: `state.NewBase` of package `store/state`, whose code is not
    in this package. -/
def state.NewBase (cdc : codec.Codec) (key : Option GoString) (rootkey : Bytes) : state.Base :=
  { cdc := cdc, storeKey := key, KeyPrefix := rootkey }

/-- Modelled from the spec: the full store key of a record in a namespace is the
    prefix of the namespace followed by the key of the record. -/
def state.Base.key (b : state.Base) (suffix : Bytes) : Bytes := b.KeyPrefix ++ suffix

/-- `client.Manager` of package `02-client`. -/
structure client.Manager where
  protocol : state.Base

/-- `client.NewManager`. -/
def client.NewManager (protocol : state.Base) : client.Manager := { protocol := protocol }

/-- `connection.Manager` of package `03-connection`. -/
structure connection.Manager where
  client : client.Manager
  protocol : state.Base

/-- `connection.NewManager`. -/
def connection.NewManager (clientman : client.Manager) (protocol : state.Base) : connection.Manager :=
  { client := clientman, protocol := protocol }

/-- `connection.CLIObject`: the handle `man.CLIObject(path, id)` for the connection
    `id` read under `path`. -/
structure connection.CLIObject where
  man : connection.Manager
  Path : merkle.Path
  ID : GoString

/-- `man.CLIObject(path, id)`. -/
def connection.Manager.CLIObject (man : connection.Manager) (path : merkle.Path) (id : GoString) :
    connection.CLIObject :=
  { man := man, Path := path, ID := id }

/-- `context.CLIContext`: what the commands reach through the context.
    `GetNode` is the result of `ctx.GetNode()`; `QueryConnection` is the answer of
    the node to the store query behind `CLIObject.Connection(ctx)`, as a function of
    the namespace prefix, the path and the connection identifier. -/
structure context.CLIContext where
  GetNode : Except Error Node
  QueryConnection : Bytes → merkle.Path → GoString → Except Error (connection.Connection × merkle.Proof)

/-! ## Effects of a command -/

/-- A lookup performed by a command. -/
inductive Call where
  | getNode
  | abciInfo
  | commit (height : Int)
  | validators (height : Int)
  | connection (base : Bytes) (path : merkle.Path) (id : GoString)
deriving DecidableEq, Repr

/-- What a run leaves behind: the lookups performed, in order, and the bytes
    written to standard output. -/
structure World where
  calls : List Call
  stdout : Bytes
deriving DecidableEq, Repr

/-- How a command stops early. -/
inductive Abort where
  /-- the function returned a non-nil `error` -/
  | returned (err : Error)
  /-- runtime panic: index out of range -/
  | indexOutOfRange (index length : Nat)
  /-- runtime panic while the payload is built: a nil pointer dereference, or a
      panic raised by `tmtypes.NewValidatorSet` -/
  | panicked
deriving DecidableEq, Repr

/-- Computations of a command body. -/
abbrev CLI := ExceptT Abort (StateM World)

/-- Run a computation from a given world. -/
def CLI.exec {α : Type} (x : CLI α) (w : World) : Except Abort α × World := (ExceptT.run x).run w

/-- A lookup `v, err := f(...)` followed by `if err != nil { return err }`: the call
    is recorded, then its error, if any, is returned. -/
def lookup {α : Type} (c : Call) (r : Except Error α) : CLI α := do
  modify fun w => { w with calls := w.calls ++ [c] }
  match r with
  | .ok a => pure a
  | .error err => throw (Abort.returned err)

/-- `fmt.Printf("%s\n", bz)`: writes the bytes and a newline to standard output. -/
def fmt.Printf_s_nl (bz : Bytes) : CLI Unit :=
  modify fun w => { w with stdout := w.stdout ++ bz ++ lit "\n" }

/-- `ctx.GetNode()`. -/
def context.CLIContext.getNode (ctx : context.CLIContext) : CLI Node :=
  lookup Call.getNode ctx.GetNode

/-- `node.ABCIInfo()`. -/
def Node.abciInfo (node : Node) : CLI ctypes.ResultABCIInfo :=
  lookup Call.abciInfo node.ABCIInfo

/-- `node.Commit(&height)`. -/
def Node.commit (node : Node) (height : Int) : CLI ctypes.ResultCommit :=
  lookup (Call.commit height) (node.Commit height)

/-- `node.Validators(&height)`. -/
def Node.validators (node : Node) (height : Int) : CLI ctypes.ResultValidators :=
  lookup (Call.validators height) (node.Validators height)

/-- `obj.Connection(ctx)`: the connection record and its proof. -/
def connection.CLIObject.Connection (obj : connection.CLIObject) (ctx : context.CLIContext) :
    CLI (connection.Connection × merkle.Proof) :=
  lookup (Call.connection obj.man.protocol.KeyPrefix obj.Path obj.ID)
    (ctx.QueryConnection obj.man.protocol.KeyPrefix obj.Path obj.ID)

/-- A value whose evaluation may panic: `none` stands for the panic. -/
def orPanic {α : Type} (r : Option α) : CLI α :=
  match r with
  | some a => pure a
  | none => throw Abort.panicked

/-- Promoted field `commit.ChainID`: dereferences the embedded `*Header`. -/
def ctypes.ResultCommit.ChainID (c : ctypes.ResultCommit) : CLI GoString := do
  let header ← orPanic c.SignedHeader.Header
  pure header.ChainID

/-- Promoted field `commit.Height`: dereferences the embedded `*Header`. -/
def ctypes.ResultCommit.Height (c : ctypes.ResultCommit) : CLI Int := do
  let header ← orPanic c.SignedHeader.Header
  pure header.Height

/-- Promoted field `commit.AppHash`: dereferences the embedded `*Header`. -/
def ctypes.ResultCommit.AppHash (c : ctypes.ResultCommit) : CLI Bytes := do
  let header ← orPanic c.SignedHeader.Header
  pure header.AppHash

/-- Index expression `args[0]`: panics when the slice is empty. -/
def index0 (args : List GoString) : CLI GoString :=
  match args with
  | [] => throw (Abort.indexOutOfRange 0 0)
  | a :: _ => pure a

/-! ## cobra -/

/-- `cobra.Command`: the fields set by this file that decide what a command does. -/
structure cobra.Command where
  Use : GoString
  Args : Option (List GoString → Option Error)
  RunE : List GoString → CLI Unit

/-- `cobra.ExactArgs(n)`: an error unless there are exactly `n` arguments. -/
def cobra.ExactArgs (n : Nat) (args : List GoString) : Option Error :=
  if args.length ≠ n then some (Error.exactArgs n args.length) else none

/-- Execution of a command by cobra on its positional arguments: the argument
    validator, when there is one, runs first and its error is returned; then `RunE`
    runs. -/
def cobra.Command.execute (c : cobra.Command) (args : List GoString) : CLI Unit := do
  match c.Args with
  | some validate =>
    match validate args with
    | some err => throw (Abort.returned err)
    | none => pure ()
  | none => pure ()
  c.RunE args

/-! ## The file `query.go` -/

/-- `defaultPath`. -/
def defaultPath (storeKey : GoString) : merkle.Path :=
  merkle.NewPath [bytesOf storeKey] (bytesOf (lit "protocol"))

/-- `defaultBase`. -/
def defaultBase (cdc : codec.Codec) : state.Base × state.Base :=
  let protocol := state.NewBase cdc none (bytesOf (lit "protocol"))
  let free := state.NewBase cdc none (bytesOf (lit "free"))
  (protocol, free)

/-- `GetCmdQueryConnection`.  `ctx` stands for the context
    `context.NewCLIContext().WithCodec(cdc)` the body builds: what the process reaches
    through it. -/
def GetCmdQueryConnection (ctx : context.CLIContext) (storeKey : GoString) (cdc : codec.Codec) :
    cobra.Command :=
  { Use := lit "connection"
    Args := some (cobra.ExactArgs 1)
    RunE := fun args => do
      let (protocol, _) := defaultBase cdc
      let man := connection.NewManager (client.NewManager protocol) protocol
      let path := defaultPath storeKey
      let id ← index0 args
      let (state, _) ← (man.CLIObject path id).Connection ctx
      fmt.Printf_s_nl (cdc.MustMarshalJSONIndent (Payload.connection state)) }

/-- `GetCmdQueryConsensusState`.  `NewValidatorSet` is `tmtypes.NewValidatorSet`, which
    returns a set or panics (`none`); `ctx` stands for the context
    `context.NewCLIContext().WithCodec(cdc)` the body builds.  The command sets no
    argument validator and its body ignores `args` and `storeKey`. -/
def GetCmdQueryConsensusState
    (NewValidatorSet : List tmtypes.Validator → Option tmtypes.ValidatorSet)
    (ctx : context.CLIContext) (_storeKey : GoString) (cdc : codec.Codec) : cobra.Command :=
  { Use := lit "consensus-state"
    Args := none
    RunE := fun _args => do
      let node ← ctx.getNode
      let info ← node.abciInfo
      let height := info.Response.LastBlockHeight
      let prevheight := subInt64 height 1
      let commit ← node.commit height
      let validators ← node.validators prevheight
      let state : tendermint.ConsensusState :=
        { ChainID := ← commit.ChainID
          Height := uint64 (← commit.Height)
          Root := merkle.NewRoot (← commit.AppHash)
          NextValidatorSet := ← orPanic (NewValidatorSet validators.Validators) }
      fmt.Printf_s_nl (cdc.MustMarshalJSONIndent (Payload.consensusState state)) }

/-- `GetCmdQueryHeader`.  `NewValidatorSet` is `tmtypes.NewValidatorSet`, which returns
    a set or panics (`none`); `ctx` stands for the context
    `context.NewCLIContext().WithCodec(cdc)` the body builds.  The command sets no
    argument validator and its body ignores `args`; it copies `commit.SignedHeader`
    without dereferencing its pointers. -/
def GetCmdQueryHeader (NewValidatorSet : List tmtypes.Validator → Option tmtypes.ValidatorSet)
    (ctx : context.CLIContext) (cdc : codec.Codec) : cobra.Command :=
  { Use := lit "header"
    Args := none
    RunE := fun _args => do
      let node ← ctx.getNode
      let info ← node.abciInfo
      let height := info.Response.LastBlockHeight
      let prevheight := subInt64 height 1
      let commit ← node.commit height
      let validators ← node.validators prevheight
      let nextvalidators ← node.validators height
      let header : tendermint.Header :=
        { SignedHeader := commit.SignedHeader
          ValidatorSet := ← orPanic (NewValidatorSet validators.Validators)
          NextValidatorSet := ← orPanic (NewValidatorSet nextvalidators.Validators) }
      fmt.Printf_s_nl (cdc.MustMarshalJSONIndent (Payload.header header)) }

/-! ## Runs and their outcomes -/

/-- Run of the `connection` command on `args` from the world `w`. -/
def runConnection (ctx : context.CLIContext) (storeKey : GoString) (cdc : codec.Codec)
    (args : List GoString) (w : World) : Except Abort Unit × World :=
  ((GetCmdQueryConnection ctx storeKey cdc).execute args).exec w

/-- Run of the `consensus-state` command on `args` from the world `w`. -/
def runConsensusState (NewValidatorSet : List tmtypes.Validator → Option tmtypes.ValidatorSet)
    (ctx : context.CLIContext) (storeKey : GoString) (cdc : codec.Codec)
    (args : List GoString) (w : World) : Except Abort Unit × World :=
  ((GetCmdQueryConsensusState NewValidatorSet ctx storeKey cdc).execute args).exec w

/-- Run of the `header` command on `args` from the world `w`. -/
def runHeader (NewValidatorSet : List tmtypes.Validator → Option tmtypes.ValidatorSet)
    (ctx : context.CLIContext) (cdc : codec.Codec)
    (args : List GoString) (w : World) : Except Abort Unit × World :=
  ((GetCmdQueryHeader NewValidatorSet ctx cdc).execute args).exec w

/-- Outcome of a run from `w` that performed the lookups `cs`, returned the error
    `err` and printed nothing. -/
def returnedError (w : World) (cs : List Call) (err : Error) : Except Abort Unit × World :=
  (Except.error (Abort.returned err), { calls := w.calls ++ cs, stdout := w.stdout })

/-- Outcome of a run from `w` that performed the lookups `cs`, printed the bytes
    `bz` followed by one newline and nothing else, and returned no error. -/
def printedOnce (w : World) (cs : List Call) (bz : Bytes) : Except Abort Unit × World :=
  (Except.ok (), { calls := w.calls ++ cs, stdout := w.stdout ++ bz ++ lit "\n" })

/-- Outcome of a run from `w` that performed the lookups `cs`, then stopped with a
    runtime panic while building its payload: nothing printed, no value returned. -/
def panickedAfter (w : World) (cs : List Call) : Except Abort Unit × World :=
  (Except.error Abort.panicked, { calls := w.calls ++ cs, stdout := w.stdout })

/-! ## The Client Manager side -/

/-- Modelled from the spec: the consensus state `update_client` of the Client Manager
    (package `02-client`, not in this package) appends on success.  It is derived from
    the header: chain id and height of the header, root = the committed app-state hash
    of the header, next_validator_set = header.next_validator_set.  A header whose
    signed header carries no block header derives nothing. -/
def deriveConsensusState (header : tendermint.Header) : Option tendermint.ConsensusState :=
  match header.SignedHeader.Header with
  | none => none
  | some h =>
    some
      { ChainID := h.ChainID
        Height := uint64 h.Height
        Root := merkle.NewRoot h.AppHash
        NextValidatorSet := header.NextValidatorSet }

/-- Modelled from the spec: the trust-chaining rule of `update_client` (package
    `02-client`, not in this package).  A header passes when its validator_set is the
    next_validator_set recorded in the latest consensus state of the client; otherwise
    the update fails with `ValidatorSetMismatch`. -/
def trustChained (cs : tendermint.ConsensusState) (header : tendermint.Header) : Bool :=
  decide (header.ValidatorSet = cs.NextValidatorSet)

/-! ## Node histories and sample data -/

/-- The committed blocks of a chain by height: the commit and the validator set the
    node serves for a height. -/
structure History where
  Commit : Int → Except Error ctypes.ResultCommit
  Validators : Int → Except Error ctypes.ResultValidators

/-- The node when the latest committed height of the history is `h`. -/
def History.nodeAt (hist : History) (h : Int) : Node :=
  { ABCIInfo := Except.ok { Response := { Data := [], LastBlockHeight := h, LastBlockAppHash := [] } }
    Commit := hist.Commit
    Validators := hist.Validators }

/-- A context whose node is `node`, with an empty connection store. -/
def contextOf (node : Node) : context.CLIContext :=
  { GetNode := Except.ok node
    QueryConnection := fun _ _ _ => Except.error (Error.rpc "connection not found") }

/-- Whether a list of addresses names one address twice. -/
def hasDuplicate : List Bytes → Bool
  | [] => false
  | a :: rest => rest.contains a || hasDuplicate rest

/-- A validator-set constructor used in examples.  Like `tmtypes.NewValidatorSet` it
    panics (`none`) when a validator has zero or negative voting power, when two
    validators share an address, or when the total voting power exceeds
    `MaxTotalVotingPower` (`MaxInt64 / 8`); otherwise it keeps the validators, takes
    the first as proposer and sums the voting power. -/
def sampleNewValidatorSet (vals : List tmtypes.Validator) : Option tmtypes.ValidatorSet :=
  if vals.all (fun v => decide (0 < v.VotingPower))
      && !hasDuplicate (vals.map fun v => v.Address)
      && decide ((vals.map fun v => v.VotingPower).sum ≤ 1152921504606846975) then
    some
      { Validators := vals
        Proposer := vals.head?
        totalVotingPower := (vals.map fun v => v.VotingPower).sum }
  else none

/-- Bytes of a validator set in the example encoder: the addresses. -/
def sampleEncodeValidators (vs : tmtypes.ValidatorSet) : Bytes :=
  vs.Validators.flatMap fun v => v.Address

/-- An encoder used in examples. -/
def sampleCodec : codec.Codec :=
  { MustMarshalJSONIndent := fun p =>
      match p with
      | Payload.connection c => lit "connection " ++ c.ConnectionID
      | Payload.consensusState s => lit "consensus-state " ++ s.ChainID ++ sampleEncodeValidators s.NextValidatorSet
      | Payload.header h =>
        lit "header " ++ sampleEncodeValidators h.ValidatorSet ++ sampleEncodeValidators h.NextValidatorSet }

/-- Validator of the examples. -/
def valA : tmtypes.Validator :=
  { Address := [0xA1], PubKey := [0x01], VotingPower := 10, ProposerPriority := 0 }

/-- Another validator of the examples. -/
def valB : tmtypes.Validator :=
  { Address := [0xB2], PubKey := [0x02], VotingPower := 10, ProposerPriority := 0 }

/-- The commit of the example chain at height `h`. -/
def sampleCommit (h : Int) : ctypes.ResultCommit :=
  { SignedHeader :=
      { Header := some { ChainID := lit "chain-a", Height := h, AppHash := [0xAA], Rest := [] }
        Commit := some [0x5C] }
    CanonicalCommit := true }

/-- Example chain: blocks 100 to 102 are served; the validator set is `[valA]` at
    height 100 and `[valB]` at heights 101 and 102. -/
def sampleHistory : History :=
  { Commit := fun h =>
      if 100 ≤ h ∧ h ≤ 102 then Except.ok (sampleCommit h)
      else Except.error (Error.rpc "height is not available")
    Validators := fun h =>
      if h = 100 then Except.ok { BlockHeight := h, Validators := [valA] }
      else if h = 101 ∨ h = 102 then Except.ok { BlockHeight := h, Validators := [valB] }
      else Except.error (Error.rpc "height is not available") }

/-- Example connection record. -/
def sampleConnection : connection.Connection :=
  { ConnectionID := lit "connection-0"
    ClientID := lit "07-tendermint-0"
    CounterpartyConnectionID := lit "connection-1"
    CounterpartyClientID := lit "07-tendermint-1"
    State := connection.State.OPEN
    Version := lit "1.0.0" }

/-- Example context: the node of the example chain at latest height 101, and a store
    that holds `sampleConnection` under the protocol namespace, the default path of
    store key "ibc" and the identifier "connection-0". -/
def sampleContext : context.CLIContext :=
  { GetNode := Except.ok (sampleHistory.nodeAt 101)
    QueryConnection := fun base path id =>
      if base = lit "protocol" ∧ path = defaultPath (lit "ibc") ∧ id = lit "connection-0" then
        Except.ok (sampleConnection, { Data := [0x9F] })
      else Except.error (Error.rpc "connection not found") }

/-- A second example chain: it agrees with `sampleHistory` at the heights 100 and 101
    and differs elsewhere (it also serves block 99, and blocks 102 and 103 with another
    chain of validators). -/
def otherHistory : History :=
  { Commit := fun h =>
      if h = 101 then Except.ok (sampleCommit 101)
      else if 99 ≤ h ∧ h ≤ 103 then
        Except.ok
          { SignedHeader :=
              { Header := some { ChainID := lit "chain-a", Height := h, AppHash := [0xEE], Rest := [0x01] }
                Commit := some [0x77] }
            CanonicalCommit := false }
      else Except.error (Error.rpc "height is not available")
    Validators := fun h =>
      if h = 100 then Except.ok { BlockHeight := h, Validators := [valA] }
      else if h = 101 then Except.ok { BlockHeight := h, Validators := [valB] }
      else if h = 99 ∨ h = 102 ∨ h = 103 then Except.ok { BlockHeight := h, Validators := [valA, valB] }
      else Except.error (Error.rpc "height is not available") }

/-- The consensus state the `consensus-state` command builds on the example chain
    when the latest height is 101, `vs` being the validator set built from the
    validators at height 100. -/
def sampleConsensusState (vs : tmtypes.ValidatorSet) : tendermint.ConsensusState :=
  { ChainID := lit "chain-a"
    Height := 101
    Root := merkle.NewRoot [0xAA]
    NextValidatorSet := vs }

/-- The header the `header` command builds on the example chain when the latest
    height is 101, from the validator sets built from the validators at heights 100
    and 101. -/
def sampleHeader101 (vs nvs : tmtypes.ValidatorSet) : tendermint.Header :=
  { SignedHeader := (sampleCommit 101).SignedHeader
    ValidatorSet := vs
    NextValidatorSet := nvs }

/-- The header the `header` command builds on the example chain when the latest
    height is 102, from the validator sets built from the validators at heights 101
    and 102. -/
def sampleHeader102 (vs nvs : tmtypes.ValidatorSet) : tendermint.Header :=
  { SignedHeader := (sampleCommit 102).SignedHeader
    ValidatorSet := vs
    NextValidatorSet := nvs }

/-- The validator set `sampleNewValidatorSet` builds from `[valA]`. -/
def setA : tmtypes.ValidatorSet :=
  { Validators := [valA], Proposer := some valA, totalVotingPower := 10 }

/-- The validator set `sampleNewValidatorSet` builds from `[valB]`. -/
def setB : tmtypes.ValidatorSet :=
  { Validators := [valB], Proposer := some valB, totalVotingPower := 10 }

/-- A validator with voting power zero. -/
def valZero : tmtypes.Validator :=
  { Address := [0xC3], PubKey := [0x03], VotingPower := 0, ProposerPriority := 0 }

/-- A chain whose node serves, at height 100, a validator list holding a validator
    with voting power zero; the commits and the validators at 101 are those of the
    example chain. -/
def zeroPowerHistory : History :=
  { Commit := sampleHistory.Commit
    Validators := fun h =>
      if h = 100 then Except.ok { BlockHeight := h, Validators := [valA, valZero] }
      else sampleHistory.Validators h }

/-- A chain whose node serves, at height 101, a validator list naming `valB` twice;
    everything else is as on the example chain. -/
def duplicateHistory : History :=
  { Commit := sampleHistory.Commit
    Validators := fun h =>
      if h = 101 then Except.ok { BlockHeight := h, Validators := [valB, valB] }
      else sampleHistory.Validators h }

/-- A commit answer whose signed header carries no block header (`nil` pointer). -/
def nilHeaderCommit : ctypes.ResultCommit :=
  { SignedHeader := { Header := none, Commit := some [0x5C] }, CanonicalCommit := true }

/-- A chain whose node answers every commit lookup with `nilHeaderCommit`; the
    validators are those of the example chain. -/
def nilHeaderHistory : History :=
  { Commit := fun _ => Except.ok nilHeaderCommit
    Validators := sampleHistory.Validators }

/-- A commit answer whose header carries the height `-1`. -/
def negativeHeightCommit : ctypes.ResultCommit :=
  { SignedHeader :=
      { Header := some { ChainID := lit "chain-a", Height := -1, AppHash := [0xAA], Rest := [] }
        Commit := some [0x5C] }
    CanonicalCommit := true }

/-- A chain whose node answers every commit lookup with `negativeHeightCommit`; the
    validators are those of the example chain. -/
def negativeHeightHistory : History :=
  { Commit := fun _ => Except.ok negativeHeightCommit
    Validators := sampleHistory.Validators }

/-- Every lookup of the `consensus-state` command succeeds in the context: the node
    handle, the ABCI info, the commit at the reported height `h` and the validators at
    `h - 1`. -/
def consensusStateLookupsSucceed (ctx : context.CLIContext) : Prop :=
  ∃ (node : Node) (info : ctypes.ResultABCIInfo) (commit : ctypes.ResultCommit)
    (vals : ctypes.ResultValidators),
    ctx.GetNode = Except.ok node ∧ node.ABCIInfo = Except.ok info
    ∧ node.Commit info.Response.LastBlockHeight = Except.ok commit
    ∧ node.Validators (subInt64 info.Response.LastBlockHeight 1) = Except.ok vals

/-- Every lookup of the `header` command succeeds in the context: those of the
    `consensus-state` command and the validators at the reported height `h`. -/
def headerLookupsSucceed (ctx : context.CLIContext) : Prop :=
  ∃ (node : Node) (info : ctypes.ResultABCIInfo) (commit : ctypes.ResultCommit)
    (vals nextvals : ctypes.ResultValidators),
    ctx.GetNode = Except.ok node ∧ node.ABCIInfo = Except.ok info
    ∧ node.Commit info.Response.LastBlockHeight = Except.ok commit
    ∧ node.Validators (subInt64 info.Response.LastBlockHeight 1) = Except.ok vals
    ∧ node.Validators info.Response.LastBlockHeight = Except.ok nextvals

/-- The empty world: no lookup performed, nothing printed. -/
def World.empty : World := { calls := [], stdout := [] }

/-! ## Running a command step by step -/

theorem exec_lookup_ok {α β : Type} (c : Call) (a : α) (f : α → CLI β) (w : World) :
    (lookup c (Except.ok a) >>= f).exec w = (f a).exec { w with calls := w.calls ++ [c] } := by
  rfl

theorem exec_lookup_error {α β : Type} (c : Call) (e : Error) (f : α → CLI β) (w : World) :
    (lookup c (Except.error e : Except Error α) >>= f).exec w
      = (Except.error (Abort.returned e), { w with calls := w.calls ++ [c] }) := by
  rfl

theorem exec_printf (bz : Bytes) (w : World) :
    (fmt.Printf_s_nl bz).exec w = (Except.ok (), { w with stdout := w.stdout ++ bz ++ lit "\n" }) := by
  rfl

theorem exec_throw_bind {α β : Type} (e : Abort) (f : α → CLI β) (w : World) :
    ((throw e : CLI α) >>= f).exec w = (Except.error e, w) := by
  rfl

theorem exec_orPanic_some {α β : Type} (a : α) (f : α → CLI β) (w : World) :
    (orPanic (some a) >>= f).exec w = (f a).exec w := by
  rfl

theorem exec_orPanic_none {α β : Type} (f : α → CLI β) (w : World) :
    (orPanic (none : Option α) >>= f).exec w = (Except.error Abort.panicked, w) := by
  rfl

/-! ## Literals and arithmetic -/

theorem lit_protocol : lit "protocol" = [112, 114, 111, 116, 111, 99, 111, 108] := rfl

theorem lit_free : lit "free" = [102, 114, 101, 101] := rfl

theorem lit_newline : lit "\n" = [10] := rfl

theorem subInt64_one_exact (h : Int) (h1 : -2 ^ 63 < h) (h2 : h < 2 ^ 63) :
    subInt64 h 1 = h - 1 := by
  unfold subInt64 wrapInt64
  omega

theorem uint64_of_nonneg (x : Int) (h1 : 0 ≤ x) (h2 : x < 2 ^ 63) : (uint64 x : Int) = x := by
  unfold uint64
  omega

theorem uint64_of_neg (x : Int) (h1 : -2 ^ 63 ≤ x) (h2 : x < 0) :
    (uint64 x : Int) = x + 2 ^ 64 := by
  unfold uint64
  omega

/-! ## The `consensus-state` command, case by case -/

theorem runConsensusState_getNode_error (nvs : List tmtypes.Validator → Option tmtypes.ValidatorSet)
    (ctx : context.CLIContext) (storeKey : GoString) (cdc : codec.Codec)
    (args : List GoString) (w : World) (e : Error)
    (hnode : ctx.GetNode = Except.error e) :
    runConsensusState nvs ctx storeKey cdc args w = returnedError w [Call.getNode] e := by
  simp only [runConsensusState, returnedError, cobra.Command.execute, GetCmdQueryConsensusState,
    context.CLIContext.getNode, pure_bind, hnode, exec_lookup_error]

theorem runConsensusState_abciInfo_error (nvs : List tmtypes.Validator → Option tmtypes.ValidatorSet)
    (ctx : context.CLIContext) (storeKey : GoString) (cdc : codec.Codec)
    (args : List GoString) (w : World) (node : Node) (e : Error)
    (hnode : ctx.GetNode = Except.ok node)
    (hinfo : node.ABCIInfo = Except.error e) :
    runConsensusState nvs ctx storeKey cdc args w
      = returnedError w [Call.getNode, Call.abciInfo] e := by
  simp only [runConsensusState, returnedError, cobra.Command.execute, GetCmdQueryConsensusState,
    context.CLIContext.getNode, Node.abciInfo, pure_bind, hnode, hinfo, exec_lookup_ok,
    exec_lookup_error, List.append_assoc, List.cons_append, List.nil_append]

theorem runConsensusState_commit_error (nvs : List tmtypes.Validator → Option tmtypes.ValidatorSet)
    (ctx : context.CLIContext) (storeKey : GoString) (cdc : codec.Codec)
    (args : List GoString) (w : World) (node : Node) (info : ctypes.ResultABCIInfo) (e : Error)
    (hnode : ctx.GetNode = Except.ok node)
    (hinfo : node.ABCIInfo = Except.ok info)
    (hcommit : node.Commit info.Response.LastBlockHeight = Except.error e) :
    runConsensusState nvs ctx storeKey cdc args w
      = returnedError w
          [Call.getNode, Call.abciInfo, Call.commit info.Response.LastBlockHeight] e := by
  simp only [runConsensusState, returnedError, cobra.Command.execute, GetCmdQueryConsensusState,
    context.CLIContext.getNode, Node.abciInfo, Node.commit, pure_bind, hnode, hinfo, hcommit,
    exec_lookup_ok, exec_lookup_error, List.append_assoc, List.cons_append, List.nil_append]

theorem runConsensusState_validators_error (nvs : List tmtypes.Validator → Option tmtypes.ValidatorSet)
    (ctx : context.CLIContext) (storeKey : GoString) (cdc : codec.Codec)
    (args : List GoString) (w : World) (node : Node) (info : ctypes.ResultABCIInfo)
    (commit : ctypes.ResultCommit) (e : Error)
    (hnode : ctx.GetNode = Except.ok node)
    (hinfo : node.ABCIInfo = Except.ok info)
    (hcommit : node.Commit info.Response.LastBlockHeight = Except.ok commit)
    (hvals : node.Validators (subInt64 info.Response.LastBlockHeight 1) = Except.error e) :
    runConsensusState nvs ctx storeKey cdc args w
      = returnedError w
          [Call.getNode, Call.abciInfo, Call.commit info.Response.LastBlockHeight,
            Call.validators (subInt64 info.Response.LastBlockHeight 1)] e := by
  simp only [runConsensusState, returnedError, cobra.Command.execute, GetCmdQueryConsensusState,
    context.CLIContext.getNode, Node.abciInfo, Node.commit, Node.validators, pure_bind,
    hnode, hinfo, hcommit, hvals, exec_lookup_ok, exec_lookup_error,
    List.append_assoc, List.cons_append, List.nil_append]

theorem runConsensusState_ok (nvs : List tmtypes.Validator → Option tmtypes.ValidatorSet)
    (ctx : context.CLIContext) (storeKey : GoString) (cdc : codec.Codec)
    (args : List GoString) (w : World)
    (node : Node) (info : ctypes.ResultABCIInfo) (commit : ctypes.ResultCommit)
    (vals : ctypes.ResultValidators) (header : tmtypes.Header) (vs : tmtypes.ValidatorSet)
    (hnode : ctx.GetNode = Except.ok node)
    (hinfo : node.ABCIInfo = Except.ok info)
    (hcommit : node.Commit info.Response.LastBlockHeight = Except.ok commit)
    (hvals : node.Validators (subInt64 info.Response.LastBlockHeight 1) = Except.ok vals)
    (hheader : commit.SignedHeader.Header = some header)
    (hset : nvs vals.Validators = some vs) :
    runConsensusState nvs ctx storeKey cdc args w
      = printedOnce w
          [Call.getNode, Call.abciInfo, Call.commit info.Response.LastBlockHeight,
            Call.validators (subInt64 info.Response.LastBlockHeight 1)]
          (cdc.MustMarshalJSONIndent (Payload.consensusState
            { ChainID := header.ChainID
              Height := uint64 header.Height
              Root := merkle.NewRoot header.AppHash
              NextValidatorSet := vs })) := by
  simp only [runConsensusState, printedOnce, cobra.Command.execute, GetCmdQueryConsensusState,
    context.CLIContext.getNode, Node.abciInfo, Node.commit, Node.validators, pure_bind, bind_assoc,
    ctypes.ResultCommit.ChainID, ctypes.ResultCommit.Height, ctypes.ResultCommit.AppHash,
    hnode, hinfo, hcommit, hvals, hheader, hset, exec_lookup_ok, exec_printf, exec_orPanic_some,
    List.append_assoc, List.cons_append, List.nil_append]

theorem runConsensusState_nil_header (nvs : List tmtypes.Validator → Option tmtypes.ValidatorSet)
    (ctx : context.CLIContext) (storeKey : GoString) (cdc : codec.Codec)
    (args : List GoString) (w : World)
    (node : Node) (info : ctypes.ResultABCIInfo) (commit : ctypes.ResultCommit)
    (vals : ctypes.ResultValidators)
    (hnode : ctx.GetNode = Except.ok node)
    (hinfo : node.ABCIInfo = Except.ok info)
    (hcommit : node.Commit info.Response.LastBlockHeight = Except.ok commit)
    (hvals : node.Validators (subInt64 info.Response.LastBlockHeight 1) = Except.ok vals)
    (hheader : commit.SignedHeader.Header = none) :
    runConsensusState nvs ctx storeKey cdc args w
      = panickedAfter w
          [Call.getNode, Call.abciInfo, Call.commit info.Response.LastBlockHeight,
            Call.validators (subInt64 info.Response.LastBlockHeight 1)] := by
  simp only [runConsensusState, panickedAfter, cobra.Command.execute, GetCmdQueryConsensusState,
    context.CLIContext.getNode, Node.abciInfo, Node.commit, Node.validators, pure_bind, bind_assoc,
    ctypes.ResultCommit.ChainID, ctypes.ResultCommit.Height, ctypes.ResultCommit.AppHash,
    hnode, hinfo, hcommit, hvals, hheader, exec_lookup_ok, exec_orPanic_none,
    List.append_assoc, List.cons_append, List.nil_append]

theorem runConsensusState_set_panic (nvs : List tmtypes.Validator → Option tmtypes.ValidatorSet)
    (ctx : context.CLIContext) (storeKey : GoString) (cdc : codec.Codec)
    (args : List GoString) (w : World)
    (node : Node) (info : ctypes.ResultABCIInfo) (commit : ctypes.ResultCommit)
    (vals : ctypes.ResultValidators)
    (hnode : ctx.GetNode = Except.ok node)
    (hinfo : node.ABCIInfo = Except.ok info)
    (hcommit : node.Commit info.Response.LastBlockHeight = Except.ok commit)
    (hvals : node.Validators (subInt64 info.Response.LastBlockHeight 1) = Except.ok vals)
    (hset : nvs vals.Validators = none) :
    runConsensusState nvs ctx storeKey cdc args w
      = panickedAfter w
          [Call.getNode, Call.abciInfo, Call.commit info.Response.LastBlockHeight,
            Call.validators (subInt64 info.Response.LastBlockHeight 1)] := by
  rcases hh : commit.SignedHeader.Header with _ | header
  · exact runConsensusState_nil_header nvs ctx storeKey cdc args w node info commit vals
      hnode hinfo hcommit hvals hh
  · simp only [runConsensusState, panickedAfter, cobra.Command.execute, GetCmdQueryConsensusState,
      context.CLIContext.getNode, Node.abciInfo, Node.commit, Node.validators, pure_bind,
      bind_assoc, ctypes.ResultCommit.ChainID, ctypes.ResultCommit.Height,
      ctypes.ResultCommit.AppHash, hnode, hinfo, hcommit, hvals, hh, hset, exec_lookup_ok,
      exec_orPanic_none, exec_orPanic_some, List.append_assoc, List.cons_append,
      List.nil_append]

theorem runConsensusState_calls (nvs : List tmtypes.Validator → Option tmtypes.ValidatorSet)
    (ctx : context.CLIContext) (storeKey : GoString) (cdc : codec.Codec)
    (args : List GoString) (w : World)
    (node : Node) (info : ctypes.ResultABCIInfo) (commit : ctypes.ResultCommit)
    (vals : ctypes.ResultValidators)
    (hnode : ctx.GetNode = Except.ok node)
    (hinfo : node.ABCIInfo = Except.ok info)
    (hcommit : node.Commit info.Response.LastBlockHeight = Except.ok commit)
    (hvals : node.Validators (subInt64 info.Response.LastBlockHeight 1) = Except.ok vals) :
    (runConsensusState nvs ctx storeKey cdc args w).2.calls
      = w.calls ++ [Call.getNode, Call.abciInfo, Call.commit info.Response.LastBlockHeight,
          Call.validators (subInt64 info.Response.LastBlockHeight 1)] := by
  rcases hh : commit.SignedHeader.Header with _ | header
  · rw [runConsensusState_nil_header nvs ctx storeKey cdc args w node info commit vals
      hnode hinfo hcommit hvals hh]
    rfl
  rcases hs : nvs vals.Validators with _ | vs
  · rw [runConsensusState_set_panic nvs ctx storeKey cdc args w node info commit vals
      hnode hinfo hcommit hvals hs]
    rfl
  · rw [runConsensusState_ok nvs ctx storeKey cdc args w node info commit vals header vs
      hnode hinfo hcommit hvals hh hs]
    rfl

theorem runConsensusState_congr (nvs : List tmtypes.Validator → Option tmtypes.ValidatorSet)
    (storeKey : GoString) (cdc : codec.Codec) (args : List GoString) (w : World)
    (ctx1 ctx2 : context.CLIContext) (node1 node2 : Node) (info1 info2 : ctypes.ResultABCIInfo)
    (hnode1 : ctx1.GetNode = Except.ok node1) (hnode2 : ctx2.GetNode = Except.ok node2)
    (hinfo1 : node1.ABCIInfo = Except.ok info1) (hinfo2 : node2.ABCIInfo = Except.ok info2)
    (hh : info2.Response.LastBlockHeight = info1.Response.LastBlockHeight)
    (hcommit : node1.Commit info1.Response.LastBlockHeight
      = node2.Commit info1.Response.LastBlockHeight)
    (hvals : node1.Validators (subInt64 info1.Response.LastBlockHeight 1)
      = node2.Validators (subInt64 info1.Response.LastBlockHeight 1)) :
    runConsensusState nvs ctx1 storeKey cdc args w = runConsensusState nvs ctx2 storeKey cdc args w := by
  simp only [runConsensusState, cobra.Command.execute, GetCmdQueryConsensusState,
    context.CLIContext.getNode, Node.abciInfo, Node.commit, Node.validators, pure_bind,
    hnode1, hnode2, hinfo1, hinfo2, exec_lookup_ok, hh, hcommit, hvals]

/-! ## The `header` command, case by case -/

theorem runHeader_getNode_error (nvs : List tmtypes.Validator → Option tmtypes.ValidatorSet)
    (ctx : context.CLIContext) (cdc : codec.Codec)
    (args : List GoString) (w : World) (e : Error)
    (hnode : ctx.GetNode = Except.error e) :
    runHeader nvs ctx cdc args w = returnedError w [Call.getNode] e := by
  simp only [runHeader, returnedError, cobra.Command.execute, GetCmdQueryHeader,
    context.CLIContext.getNode, pure_bind, hnode, exec_lookup_error]

theorem runHeader_abciInfo_error (nvs : List tmtypes.Validator → Option tmtypes.ValidatorSet)
    (ctx : context.CLIContext) (cdc : codec.Codec)
    (args : List GoString) (w : World) (node : Node) (e : Error)
    (hnode : ctx.GetNode = Except.ok node)
    (hinfo : node.ABCIInfo = Except.error e) :
    runHeader nvs ctx cdc args w = returnedError w [Call.getNode, Call.abciInfo] e := by
  simp only [runHeader, returnedError, cobra.Command.execute, GetCmdQueryHeader,
    context.CLIContext.getNode, Node.abciInfo, pure_bind, hnode, hinfo, exec_lookup_ok,
    exec_lookup_error, List.append_assoc, List.cons_append, List.nil_append]

theorem runHeader_commit_error (nvs : List tmtypes.Validator → Option tmtypes.ValidatorSet)
    (ctx : context.CLIContext) (cdc : codec.Codec)
    (args : List GoString) (w : World) (node : Node) (info : ctypes.ResultABCIInfo) (e : Error)
    (hnode : ctx.GetNode = Except.ok node)
    (hinfo : node.ABCIInfo = Except.ok info)
    (hcommit : node.Commit info.Response.LastBlockHeight = Except.error e) :
    runHeader nvs ctx cdc args w
      = returnedError w
          [Call.getNode, Call.abciInfo, Call.commit info.Response.LastBlockHeight] e := by
  simp only [runHeader, returnedError, cobra.Command.execute, GetCmdQueryHeader,
    context.CLIContext.getNode, Node.abciInfo, Node.commit, pure_bind, hnode, hinfo, hcommit,
    exec_lookup_ok, exec_lookup_error, List.append_assoc, List.cons_append, List.nil_append]

theorem runHeader_validators_error (nvs : List tmtypes.Validator → Option tmtypes.ValidatorSet)
    (ctx : context.CLIContext) (cdc : codec.Codec)
    (args : List GoString) (w : World) (node : Node) (info : ctypes.ResultABCIInfo)
    (commit : ctypes.ResultCommit) (e : Error)
    (hnode : ctx.GetNode = Except.ok node)
    (hinfo : node.ABCIInfo = Except.ok info)
    (hcommit : node.Commit info.Response.LastBlockHeight = Except.ok commit)
    (hvals : node.Validators (subInt64 info.Response.LastBlockHeight 1) = Except.error e) :
    runHeader nvs ctx cdc args w
      = returnedError w
          [Call.getNode, Call.abciInfo, Call.commit info.Response.LastBlockHeight,
            Call.validators (subInt64 info.Response.LastBlockHeight 1)] e := by
  simp only [runHeader, returnedError, cobra.Command.execute, GetCmdQueryHeader,
    context.CLIContext.getNode, Node.abciInfo, Node.commit, Node.validators, pure_bind,
    hnode, hinfo, hcommit, hvals, exec_lookup_ok, exec_lookup_error,
    List.append_assoc, List.cons_append, List.nil_append]

theorem runHeader_nextvalidators_error (nvs : List tmtypes.Validator → Option tmtypes.ValidatorSet)
    (ctx : context.CLIContext) (cdc : codec.Codec)
    (args : List GoString) (w : World) (node : Node) (info : ctypes.ResultABCIInfo)
    (commit : ctypes.ResultCommit) (vals : ctypes.ResultValidators) (e : Error)
    (hnode : ctx.GetNode = Except.ok node)
    (hinfo : node.ABCIInfo = Except.ok info)
    (hcommit : node.Commit info.Response.LastBlockHeight = Except.ok commit)
    (hvals : node.Validators (subInt64 info.Response.LastBlockHeight 1) = Except.ok vals)
    (hnext : node.Validators info.Response.LastBlockHeight = Except.error e) :
    runHeader nvs ctx cdc args w
      = returnedError w
          [Call.getNode, Call.abciInfo, Call.commit info.Response.LastBlockHeight,
            Call.validators (subInt64 info.Response.LastBlockHeight 1),
            Call.validators info.Response.LastBlockHeight] e := by
  simp only [runHeader, returnedError, cobra.Command.execute, GetCmdQueryHeader,
    context.CLIContext.getNode, Node.abciInfo, Node.commit, Node.validators, pure_bind,
    hnode, hinfo, hcommit, hvals, hnext, exec_lookup_ok, exec_lookup_error,
    List.append_assoc, List.cons_append, List.nil_append]

theorem runHeader_ok (nvs : List tmtypes.Validator → Option tmtypes.ValidatorSet)
    (ctx : context.CLIContext) (cdc : codec.Codec) (args : List GoString) (w : World)
    (node : Node) (info : ctypes.ResultABCIInfo) (commit : ctypes.ResultCommit)
    (vals nextvals : ctypes.ResultValidators) (vs ns : tmtypes.ValidatorSet)
    (hnode : ctx.GetNode = Except.ok node)
    (hinfo : node.ABCIInfo = Except.ok info)
    (hcommit : node.Commit info.Response.LastBlockHeight = Except.ok commit)
    (hvals : node.Validators (subInt64 info.Response.LastBlockHeight 1) = Except.ok vals)
    (hnext : node.Validators info.Response.LastBlockHeight = Except.ok nextvals)
    (hset : nvs vals.Validators = some vs)
    (hnset : nvs nextvals.Validators = some ns) :
    runHeader nvs ctx cdc args w
      = printedOnce w
          [Call.getNode, Call.abciInfo, Call.commit info.Response.LastBlockHeight,
            Call.validators (subInt64 info.Response.LastBlockHeight 1),
            Call.validators info.Response.LastBlockHeight]
          (cdc.MustMarshalJSONIndent (Payload.header
            { SignedHeader := commit.SignedHeader
              ValidatorSet := vs
              NextValidatorSet := ns })) := by
  simp only [runHeader, printedOnce, cobra.Command.execute, GetCmdQueryHeader,
    context.CLIContext.getNode, Node.abciInfo, Node.commit, Node.validators, pure_bind, bind_assoc,
    hnode, hinfo, hcommit, hvals, hnext, hset, hnset, exec_lookup_ok, exec_printf,
    exec_orPanic_some, List.append_assoc, List.cons_append, List.nil_append]

theorem runHeader_set_panic (nvs : List tmtypes.Validator → Option tmtypes.ValidatorSet)
    (ctx : context.CLIContext) (cdc : codec.Codec) (args : List GoString) (w : World)
    (node : Node) (info : ctypes.ResultABCIInfo) (commit : ctypes.ResultCommit)
    (vals nextvals : ctypes.ResultValidators)
    (hnode : ctx.GetNode = Except.ok node)
    (hinfo : node.ABCIInfo = Except.ok info)
    (hcommit : node.Commit info.Response.LastBlockHeight = Except.ok commit)
    (hvals : node.Validators (subInt64 info.Response.LastBlockHeight 1) = Except.ok vals)
    (hnext : node.Validators info.Response.LastBlockHeight = Except.ok nextvals)
    (hset : nvs vals.Validators = none ∨ nvs nextvals.Validators = none) :
    runHeader nvs ctx cdc args w
      = panickedAfter w
          [Call.getNode, Call.abciInfo, Call.commit info.Response.LastBlockHeight,
            Call.validators (subInt64 info.Response.LastBlockHeight 1),
            Call.validators info.Response.LastBlockHeight] := by
  rcases hs : nvs vals.Validators with _ | vs
  · simp only [runHeader, panickedAfter, cobra.Command.execute, GetCmdQueryHeader,
      context.CLIContext.getNode, Node.abciInfo, Node.commit, Node.validators, pure_bind,
      bind_assoc, hnode, hinfo, hcommit, hvals, hnext, hs, exec_lookup_ok, exec_orPanic_none,
      List.append_assoc, List.cons_append, List.nil_append]
  · have hn : nvs nextvals.Validators = none := by
      rcases hset with h | h
      · rw [hs] at h
        exact absurd h (by simp)
      · exact h
    simp only [runHeader, panickedAfter, cobra.Command.execute, GetCmdQueryHeader,
      context.CLIContext.getNode, Node.abciInfo, Node.commit, Node.validators, pure_bind,
      bind_assoc, hnode, hinfo, hcommit, hvals, hnext, hs, hn, exec_lookup_ok,
      exec_orPanic_none, exec_orPanic_some, List.append_assoc, List.cons_append,
      List.nil_append]

theorem runHeader_calls (nvs : List tmtypes.Validator → Option tmtypes.ValidatorSet)
    (ctx : context.CLIContext) (cdc : codec.Codec) (args : List GoString) (w : World)
    (node : Node) (info : ctypes.ResultABCIInfo) (commit : ctypes.ResultCommit)
    (vals nextvals : ctypes.ResultValidators)
    (hnode : ctx.GetNode = Except.ok node)
    (hinfo : node.ABCIInfo = Except.ok info)
    (hcommit : node.Commit info.Response.LastBlockHeight = Except.ok commit)
    (hvals : node.Validators (subInt64 info.Response.LastBlockHeight 1) = Except.ok vals)
    (hnext : node.Validators info.Response.LastBlockHeight = Except.ok nextvals) :
    (runHeader nvs ctx cdc args w).2.calls
      = w.calls ++ [Call.getNode, Call.abciInfo, Call.commit info.Response.LastBlockHeight,
          Call.validators (subInt64 info.Response.LastBlockHeight 1),
          Call.validators info.Response.LastBlockHeight] := by
  rcases hs : nvs vals.Validators with _ | vs
  · rw [runHeader_set_panic nvs ctx cdc args w node info commit vals nextvals
      hnode hinfo hcommit hvals hnext (Or.inl hs)]
    rfl
  rcases hn : nvs nextvals.Validators with _ | ns
  · rw [runHeader_set_panic nvs ctx cdc args w node info commit vals nextvals
      hnode hinfo hcommit hvals hnext (Or.inr hn)]
    rfl
  · rw [runHeader_ok nvs ctx cdc args w node info commit vals nextvals vs ns
      hnode hinfo hcommit hvals hnext hs hn]
    rfl

theorem runHeader_congr (nvs : List tmtypes.Validator → Option tmtypes.ValidatorSet)
    (cdc : codec.Codec) (args : List GoString) (w : World)
    (ctx1 ctx2 : context.CLIContext) (node1 node2 : Node) (info1 info2 : ctypes.ResultABCIInfo)
    (hnode1 : ctx1.GetNode = Except.ok node1) (hnode2 : ctx2.GetNode = Except.ok node2)
    (hinfo1 : node1.ABCIInfo = Except.ok info1) (hinfo2 : node2.ABCIInfo = Except.ok info2)
    (hh : info2.Response.LastBlockHeight = info1.Response.LastBlockHeight)
    (hcommit : node1.Commit info1.Response.LastBlockHeight
      = node2.Commit info1.Response.LastBlockHeight)
    (hvals : node1.Validators (subInt64 info1.Response.LastBlockHeight 1)
      = node2.Validators (subInt64 info1.Response.LastBlockHeight 1))
    (hnext : node1.Validators info1.Response.LastBlockHeight
      = node2.Validators info1.Response.LastBlockHeight) :
    runHeader nvs ctx1 cdc args w = runHeader nvs ctx2 cdc args w := by
  simp only [runHeader, cobra.Command.execute, GetCmdQueryHeader,
    context.CLIContext.getNode, Node.abciInfo, Node.commit, Node.validators, pure_bind,
    hnode1, hnode2, hinfo1, hinfo2, exec_lookup_ok, hh, hcommit, hvals, hnext]

/-! ## The `connection` command, case by case -/

theorem runConnection_wrong_args (ctx : context.CLIContext) (storeKey : GoString)
    (cdc : codec.Codec) (args : List GoString) (w : World) (hlen : args.length ≠ 1) :
    runConnection ctx storeKey cdc args w
      = (Except.error (Abort.returned (Error.exactArgs 1 args.length)), w) := by
  simp only [runConnection, cobra.Command.execute, GetCmdQueryConnection, cobra.ExactArgs,
    hlen, ne_eq, not_false_eq_true, if_true, exec_throw_bind]

theorem runConnection_lookup_error (ctx : context.CLIContext) (storeKey : GoString)
    (cdc : codec.Codec) (id : GoString) (w : World) (e : Error)
    (hconn : ctx.QueryConnection (lit "protocol") (defaultPath storeKey) id = Except.error e) :
    runConnection ctx storeKey cdc [id] w
      = returnedError w [Call.connection (lit "protocol") (defaultPath storeKey) id] e := by
  simp only [runConnection, returnedError, cobra.Command.execute, GetCmdQueryConnection,
    cobra.ExactArgs, List.length_singleton, ne_eq, not_true_eq_false, if_false, pure_bind,
    index0, defaultBase, state.NewBase, connection.NewManager, client.NewManager,
    connection.Manager.CLIObject, connection.CLIObject.Connection, bytesOf, hconn,
    exec_lookup_error]

theorem runConnection_ok (ctx : context.CLIContext) (storeKey : GoString)
    (cdc : codec.Codec) (id : GoString) (w : World)
    (conn : connection.Connection) (proof : merkle.Proof)
    (hconn : ctx.QueryConnection (lit "protocol") (defaultPath storeKey) id
      = Except.ok (conn, proof)) :
    runConnection ctx storeKey cdc [id] w
      = printedOnce w [Call.connection (lit "protocol") (defaultPath storeKey) id]
          (cdc.MustMarshalJSONIndent (Payload.connection conn)) := by
  simp only [runConnection, printedOnce, cobra.Command.execute, GetCmdQueryConnection,
    cobra.ExactArgs, List.length_singleton, ne_eq, not_true_eq_false, if_false, pure_bind,
    index0, defaultBase, state.NewBase, connection.NewManager, client.NewManager,
    connection.Manager.CLIObject, connection.CLIObject.Connection, bytesOf, hconn,
    exec_lookup_ok, exec_printf]

/-! ## Paths and namespaces -/

/-- C5: for every store key `k`, `defaultPath k` is the commitment path whose prefix is
    the bytes of "protocol" and whose key segments are the one-element list `[k]`; two
    calls with the same key give the same path, and `defaultPath` is injective. -/
theorem defaultPath_spec :
    (∀ k : GoString,
      defaultPath k = { KeyPath := [bytesOf k], KeyPrefix := lit "protocol" }
      ∧ (defaultPath k).KeyPrefix = [112, 114, 111, 116, 111, 99, 111, 108]
      ∧ (defaultPath k).KeyPath = [k])
    ∧ (∀ k1 k2 : GoString, k1 = k2 → defaultPath k1 = defaultPath k2)
    ∧ (∀ k1 k2 : GoString, k1 ≠ k2 → defaultPath k1 ≠ defaultPath k2)
    ∧ Function.Injective defaultPath := by
  have hinj : Function.Injective defaultPath := by
    intro a b h
    simpa [defaultPath, merkle.NewPath, bytesOf] using h
  refine ⟨fun k => ⟨rfl, rfl, rfl⟩, fun k1 k2 h => by rw [h], fun k1 k2 hne h => hne (hinj h), hinj⟩

/-- Witness of C5 on the store keys "ibc" and "bank". -/
theorem defaultPath_spec_witness :
    defaultPath (lit "ibc") = { KeyPath := [[105, 98, 99]], KeyPrefix := lit "protocol" }
    ∧ defaultPath (lit "ibc") ≠ defaultPath (lit "bank") :=
  ⟨(defaultPath_spec.1 (lit "ibc")).1, defaultPath_spec.2.2.1 (lit "ibc") (lit "bank") (by decide)⟩

/-- C7: `defaultBase` returns two bases, the first with key prefix "protocol" and the
    second with key prefix "free"; the prefixes differ, neither is a prefix of the
    other, so a full key of the first namespace never equals a full key of the second;
    and the prefix of the protocol base is the prefix `defaultPath` puts in the path. -/
theorem defaultBase_namespaces (cdc : codec.Codec) :
    (defaultBase cdc).1.KeyPrefix = lit "protocol"
    ∧ (defaultBase cdc).2.KeyPrefix = lit "free"
    ∧ (defaultBase cdc).1.KeyPrefix = [112, 114, 111, 116, 111, 99, 111, 108]
    ∧ (defaultBase cdc).2.KeyPrefix = [102, 114, 101, 101]
    ∧ (defaultBase cdc).1.KeyPrefix ≠ (defaultBase cdc).2.KeyPrefix
    ∧ ¬ ((defaultBase cdc).1.KeyPrefix <+: (defaultBase cdc).2.KeyPrefix)
    ∧ ¬ ((defaultBase cdc).2.KeyPrefix <+: (defaultBase cdc).1.KeyPrefix)
    ∧ (∀ s1 s2 : Bytes, (defaultBase cdc).1.key s1 ≠ (defaultBase cdc).2.key s2)
    ∧ (∀ k : GoString, (defaultBase cdc).1.KeyPrefix = (defaultPath k).KeyPrefix) := by
  have hp : (defaultBase cdc).1.KeyPrefix = [112, 114, 111, 116, 111, 99, 111, 108] := rfl
  have hf : (defaultBase cdc).2.KeyPrefix = [102, 114, 101, 101] := rfl
  refine ⟨rfl, rfl, hp, hf, ?_, ?_, ?_, ?_, fun k => rfl⟩
  · rw [hp, hf]
    decide
  · rw [hp, hf]
    decide
  · rw [hp, hf]
    decide
  · intro s1 s2 h
    simp only [state.Base.key, hp, hf, List.cons_append, List.cons.injEq] at h
    exact absurd h.1 (by decide)

/-! ## The argument of the `connection` command -/

theorem execute_rejects_wrong_arity (c : cobra.Command) (n : Nat) (args : List GoString)
    (w : World) (hargs : c.Args = some (cobra.ExactArgs n)) (hlen : args.length ≠ n) :
    (c.execute args).exec w = (Except.error (Abort.returned (Error.exactArgs n args.length)), w) := by
  simp only [cobra.Command.execute, hargs, cobra.ExactArgs, hlen, ne_eq, not_false_eq_true,
    if_true, exec_throw_bind]

theorem runConnection_never_panics (ctx : context.CLIContext) (storeKey : GoString)
    (cdc : codec.Codec) (args : List GoString) (w : World) (i n : Nat) :
    (runConnection ctx storeKey cdc args w).1 ≠ Except.error (Abort.indexOutOfRange i n) := by
  by_cases hlen : args.length = 1
  · obtain ⟨id, rfl⟩ := List.length_eq_one.mp hlen
    rcases hq : ctx.QueryConnection (lit "protocol") (defaultPath storeKey) id with e | ⟨conn, proof⟩
    · rw [runConnection_lookup_error ctx storeKey cdc id w e hq]
      simp [returnedError]
    · rw [runConnection_ok ctx storeKey cdc id w conn proof hq]
      simp [printedOnce]
  · rw [runConnection_wrong_args ctx storeKey cdc args w hlen]
    simp

/-- C6: the `connection` command takes exactly one argument.  Its argument validator
    is `cobra.ExactArgs(1)`; for every argument list whose length is not 1 the command
    returns the validator error with no lookup performed and nothing printed, whatever
    its run function is, so the run function is not executed; no run of the command
    ends in an index-out-of-range panic.  For a one-element list `[id]` the one lookup
    performed is the connection `id` under `defaultPath storeKey` in the protocol
    namespace, and when it succeeds the payload printed is the record it returned. -/
theorem connection_query_one_argument (ctx : context.CLIContext) (storeKey : GoString)
    (cdc : codec.Codec) (w : World) :
    (∀ args : List GoString, args.length ≠ 1 →
      runConnection ctx storeKey cdc args w
        = (Except.error (Abort.returned (Error.exactArgs 1 args.length)), w))
    ∧ (∀ (runE : List GoString → CLI Unit) (args : List GoString), args.length ≠ 1 →
      (cobra.Command.execute { GetCmdQueryConnection ctx storeKey cdc with RunE := runE } args).exec w
        = (Except.error (Abort.returned (Error.exactArgs 1 args.length)), w))
    ∧ (∀ (args : List GoString) (i n : Nat),
      (runConnection ctx storeKey cdc args w).1 ≠ Except.error (Abort.indexOutOfRange i n))
    ∧ (∀ id : GoString,
      (runConnection ctx storeKey cdc [id] w).2.calls
        = w.calls ++ [Call.connection (lit "protocol") (defaultPath storeKey) id])
    ∧ (∀ (id : GoString) (conn : connection.Connection) (proof : merkle.Proof),
      ctx.QueryConnection (lit "protocol") (defaultPath storeKey) id = Except.ok (conn, proof) →
      runConnection ctx storeKey cdc [id] w
        = printedOnce w [Call.connection (lit "protocol") (defaultPath storeKey) id]
            (cdc.MustMarshalJSONIndent (Payload.connection conn))) := by
  refine ⟨?_, ?_, ?_, ?_, ?_⟩
  · intro args hlen
    exact runConnection_wrong_args ctx storeKey cdc args w hlen
  · intro runE args hlen
    exact execute_rejects_wrong_arity _ 1 args w rfl hlen
  · intro args i n
    exact runConnection_never_panics ctx storeKey cdc args w i n
  · intro id
    rcases hq : ctx.QueryConnection (lit "protocol") (defaultPath storeKey) id with e | ⟨conn, proof⟩
    · rw [runConnection_lookup_error ctx storeKey cdc id w e hq]
      rfl
    · rw [runConnection_ok ctx storeKey cdc id w conn proof hq]
      rfl
  · intro id conn proof hq
    exact runConnection_ok ctx storeKey cdc id w conn proof hq

/-- Witness of C6 on the example store: no argument, two arguments, and the argument
    "connection-0" whose record the store holds. -/
theorem connection_query_one_argument_witness :
    runConnection sampleContext (lit "ibc") sampleCodec [] World.empty
        = (Except.error (Abort.returned (Error.exactArgs 1 0)), World.empty)
    ∧ runConnection sampleContext (lit "ibc") sampleCodec [lit "a", lit "b"] World.empty
        = (Except.error (Abort.returned (Error.exactArgs 1 2)), World.empty)
    ∧ runConnection sampleContext (lit "ibc") sampleCodec [lit "connection-0"] World.empty
        = printedOnce World.empty
            [Call.connection (lit "protocol") (defaultPath (lit "ibc")) (lit "connection-0")]
            (sampleCodec.MustMarshalJSONIndent (Payload.connection sampleConnection)) :=
  ⟨(connection_query_one_argument sampleContext (lit "ibc") sampleCodec World.empty).1 []
      (by decide),
    (connection_query_one_argument sampleContext (lit "ibc") sampleCodec World.empty).1
      [lit "a", lit "b"] (by decide),
    (connection_query_one_argument sampleContext (lit "ibc") sampleCodec World.empty).2.2.2.2
      (lit "connection-0") sampleConnection { Data := [0x9F] } rfl⟩

/-! ## The `header` and `consensus-state` commands on a node whose lookups succeed -/

/-- C1 (counterexample): on the chain whose node serves a validator with voting power
    zero at height 100, every lookup of the `header` command at latest height 101
    succeeds, and the command does not output a header: `tmtypes.NewValidatorSet`
    panics on the validators at height 100, after the five lookups, and nothing is
    printed. -/
theorem header_query_panics_on_zero_power :
    headerLookupsSucceed (contextOf (zeroPowerHistory.nodeAt 101))
    ∧ (zeroPowerHistory.nodeAt 101).Validators (subInt64 101 1)
        = Except.ok { BlockHeight := 100, Validators := [valA, valZero] }
    ∧ sampleNewValidatorSet [valA, valZero] = none
    ∧ runHeader sampleNewValidatorSet (contextOf (zeroPowerHistory.nodeAt 101)) sampleCodec []
        World.empty
      = (Except.error Abort.panicked,
          { calls := [Call.getNode, Call.abciInfo, Call.commit 101, Call.validators 100,
              Call.validators 101],
            stdout := [] }) := by
  refine ⟨⟨zeroPowerHistory.nodeAt 101,
    { Response := { Data := [], LastBlockHeight := 101, LastBlockAppHash := [] } },
    sampleCommit 101, { BlockHeight := 100, Validators := [valA, valZero] },
    { BlockHeight := 101, Validators := [valB] }, rfl, rfl, rfl, rfl, rfl⟩, rfl, rfl, rfl⟩

/-- C1 (amended): when every lookup of the `header` command succeeds, with `h` the
    LastBlockHeight the node reports, and `tmtypes.NewValidatorSet` returns a set for
    the validators the node returns for `h - 1` (the `int64` subtraction of the source)
    and for those it returns for `h`, the command returns no error and prints the
    encoding of the header whose signed_header is the signed header of the commit the
    node returns for `h`, whose validator_set is the former set and whose
    next_validator_set is the latter.  When `tmtypes.NewValidatorSet` panics on either
    list, the command stops with that panic after the five lookups and prints
    nothing. -/
theorem header_query_payload (nvs : List tmtypes.Validator → Option tmtypes.ValidatorSet)
    (ctx : context.CLIContext) (cdc : codec.Codec) (args : List GoString) (w : World)
    (node : Node) (info : ctypes.ResultABCIInfo) (commit : ctypes.ResultCommit)
    (vals nextvals : ctypes.ResultValidators)
    (hnode : ctx.GetNode = Except.ok node)
    (hinfo : node.ABCIInfo = Except.ok info)
    (hcommit : node.Commit info.Response.LastBlockHeight = Except.ok commit)
    (hvals : node.Validators (subInt64 info.Response.LastBlockHeight 1) = Except.ok vals)
    (hnext : node.Validators info.Response.LastBlockHeight = Except.ok nextvals) :
    (∀ vs ns : tmtypes.ValidatorSet,
      nvs vals.Validators = some vs → nvs nextvals.Validators = some ns →
      runHeader nvs ctx cdc args w
        = printedOnce w
            [Call.getNode, Call.abciInfo, Call.commit info.Response.LastBlockHeight,
              Call.validators (subInt64 info.Response.LastBlockHeight 1),
              Call.validators info.Response.LastBlockHeight]
            (cdc.MustMarshalJSONIndent (Payload.header
              { SignedHeader := commit.SignedHeader
                ValidatorSet := vs
                NextValidatorSet := ns })))
    ∧ (nvs vals.Validators = none ∨ nvs nextvals.Validators = none →
      runHeader nvs ctx cdc args w
        = panickedAfter w
            [Call.getNode, Call.abciInfo, Call.commit info.Response.LastBlockHeight,
              Call.validators (subInt64 info.Response.LastBlockHeight 1),
              Call.validators info.Response.LastBlockHeight]) := by
  constructor
  · intro vs ns hset hnset
    exact runHeader_ok nvs ctx cdc args w node info commit vals nextvals vs ns
      hnode hinfo hcommit hvals hnext hset hnset
  · intro hset
    exact runHeader_set_panic nvs ctx cdc args w node info commit vals nextvals
      hnode hinfo hcommit hvals hnext hset

/-- Witness of C1 (amended) on the example chain at latest height 101. -/
theorem header_query_payload_witness :
    runHeader sampleNewValidatorSet sampleContext sampleCodec [] World.empty
      = printedOnce World.empty
          [Call.getNode, Call.abciInfo, Call.commit 101, Call.validators 100, Call.validators 101]
          (sampleCodec.MustMarshalJSONIndent (Payload.header
            { SignedHeader := (sampleCommit 101).SignedHeader
              ValidatorSet := setA
              NextValidatorSet := setB })) :=
  (header_query_payload sampleNewValidatorSet sampleContext sampleCodec [] World.empty
    (sampleHistory.nodeAt 101)
    { Response := { Data := [], LastBlockHeight := 101, LastBlockAppHash := [] } }
    (sampleCommit 101) { BlockHeight := 100, Validators := [valA] }
    { BlockHeight := 101, Validators := [valB] } rfl rfl rfl rfl rfl).1 setA setB rfl rfl

/-- C2 (counterexample): three node states in which every lookup of the
    `consensus-state` command at latest height 101 succeeds and the claim fails.  With a
    validator of voting power zero at height 100, `tmtypes.NewValidatorSet` panics; with
    a commit whose header pointer is `nil`, `commit.ChainID` panics; in both nothing is
    printed.  With a commit whose height is `-1`, the height printed is
    `18446744073709551615`, not the height of the commit. -/
theorem consensus_state_query_counterexamples :
    (consensusStateLookupsSucceed (contextOf (zeroPowerHistory.nodeAt 101))
      ∧ runConsensusState sampleNewValidatorSet (contextOf (zeroPowerHistory.nodeAt 101))
          (lit "ibc") sampleCodec [] World.empty
        = (Except.error Abort.panicked,
            { calls := [Call.getNode, Call.abciInfo, Call.commit 101, Call.validators 100],
              stdout := [] }))
    ∧ (consensusStateLookupsSucceed (contextOf (nilHeaderHistory.nodeAt 101))
      ∧ runConsensusState sampleNewValidatorSet (contextOf (nilHeaderHistory.nodeAt 101))
          (lit "ibc") sampleCodec [] World.empty
        = (Except.error Abort.panicked,
            { calls := [Call.getNode, Call.abciInfo, Call.commit 101, Call.validators 100],
              stdout := [] }))
    ∧ (consensusStateLookupsSucceed (contextOf (negativeHeightHistory.nodeAt 101))
      ∧ (negativeHeightHistory.nodeAt 101).Commit 101 = Except.ok negativeHeightCommit
      ∧ negativeHeightCommit.SignedHeader.Header
          = some { ChainID := lit "chain-a", Height := -1, AppHash := [0xAA], Rest := [] }
      ∧ runConsensusState sampleNewValidatorSet (contextOf (negativeHeightHistory.nodeAt 101))
          (lit "ibc") sampleCodec [] World.empty
        = printedOnce World.empty
            [Call.getNode, Call.abciInfo, Call.commit 101, Call.validators 100]
            (sampleCodec.MustMarshalJSONIndent (Payload.consensusState
              { ChainID := lit "chain-a"
                Height := 18446744073709551615
                Root := merkle.NewRoot [0xAA]
                NextValidatorSet := setA }))
      ∧ ((18446744073709551615 : Nat) : Int) ≠ -1) := by
  refine ⟨⟨⟨zeroPowerHistory.nodeAt 101,
      { Response := { Data := [], LastBlockHeight := 101, LastBlockAppHash := [] } },
      sampleCommit 101, { BlockHeight := 100, Validators := [valA, valZero] },
      rfl, rfl, rfl, rfl⟩, rfl⟩,
    ⟨⟨nilHeaderHistory.nodeAt 101,
      { Response := { Data := [], LastBlockHeight := 101, LastBlockAppHash := [] } },
      nilHeaderCommit, { BlockHeight := 100, Validators := [valA] },
      rfl, rfl, rfl, rfl⟩, rfl⟩,
    ⟨⟨negativeHeightHistory.nodeAt 101,
      { Response := { Data := [], LastBlockHeight := 101, LastBlockAppHash := [] } },
      negativeHeightCommit, { BlockHeight := 100, Validators := [valA] },
      rfl, rfl, rfl, rfl⟩, rfl, rfl, rfl, by decide⟩⟩

/-- C2 (amended): when every lookup of the `consensus-state` command succeeds, with `h`
    the LastBlockHeight the node reports and `c` the commit the node returns for `h`,
    the header pointer of `c` is not `nil`, and `tmtypes.NewValidatorSet` returns a set
    for the validators the node returns for `h - 1` (the `int64` subtraction of the
    source), the command returns no error and prints the encoding of the consensus
    state with chain_id = c.ChainID, height = uint64(c.Height), which is numerically
    c.Height when c.Height is a non-negative `int64`, root = the merkle root wrapping
    c.AppHash and next_validator_set = that set.  When the header pointer is `nil` or
    `tmtypes.NewValidatorSet` panics, the command stops with a panic after the four
    lookups and prints nothing. -/
theorem consensus_state_query_payload
    (nvs : List tmtypes.Validator → Option tmtypes.ValidatorSet)
    (ctx : context.CLIContext) (storeKey : GoString) (cdc : codec.Codec)
    (args : List GoString) (w : World)
    (node : Node) (info : ctypes.ResultABCIInfo) (commit : ctypes.ResultCommit)
    (vals : ctypes.ResultValidators)
    (hnode : ctx.GetNode = Except.ok node)
    (hinfo : node.ABCIInfo = Except.ok info)
    (hcommit : node.Commit info.Response.LastBlockHeight = Except.ok commit)
    (hvals : node.Validators (subInt64 info.Response.LastBlockHeight 1) = Except.ok vals) :
    (∀ (header : tmtypes.Header) (vs : tmtypes.ValidatorSet),
      commit.SignedHeader.Header = some header → nvs vals.Validators = some vs →
      runConsensusState nvs ctx storeKey cdc args w
          = printedOnce w
              [Call.getNode, Call.abciInfo, Call.commit info.Response.LastBlockHeight,
                Call.validators (subInt64 info.Response.LastBlockHeight 1)]
              (cdc.MustMarshalJSONIndent (Payload.consensusState
                { ChainID := header.ChainID
                  Height := uint64 header.Height
                  Root := merkle.NewRoot header.AppHash
                  NextValidatorSet := vs }))
        ∧ (0 ≤ header.Height → header.Height < 2 ^ 63 → (uint64 header.Height : Int) = header.Height))
    ∧ (commit.SignedHeader.Header = none ∨ nvs vals.Validators = none →
      runConsensusState nvs ctx storeKey cdc args w
        = panickedAfter w
            [Call.getNode, Call.abciInfo, Call.commit info.Response.LastBlockHeight,
              Call.validators (subInt64 info.Response.LastBlockHeight 1)]) := by
  constructor
  · intro header vs hheader hset
    exact ⟨runConsensusState_ok nvs ctx storeKey cdc args w node info commit vals header vs
      hnode hinfo hcommit hvals hheader hset, uint64_of_nonneg header.Height⟩
  · intro hp
    rcases hp with hheader | hset
    · exact runConsensusState_nil_header nvs ctx storeKey cdc args w node info commit vals
        hnode hinfo hcommit hvals hheader
    · exact runConsensusState_set_panic nvs ctx storeKey cdc args w node info commit vals
        hnode hinfo hcommit hvals hset

/-- Witness of C2 (amended) on the example chain at latest height 101. -/
theorem consensus_state_query_payload_witness :
    runConsensusState sampleNewValidatorSet sampleContext (lit "ibc") sampleCodec [] World.empty
        = printedOnce World.empty
            [Call.getNode, Call.abciInfo, Call.commit 101, Call.validators 100]
            (sampleCodec.MustMarshalJSONIndent (Payload.consensusState
              { ChainID := lit "chain-a"
                Height := uint64 101
                Root := merkle.NewRoot [0xAA]
                NextValidatorSet := setA }))
      ∧ (uint64 101 : Int) = 101 :=
  ⟨((consensus_state_query_payload sampleNewValidatorSet sampleContext (lit "ibc") sampleCodec []
      World.empty (sampleHistory.nodeAt 101)
      { Response := { Data := [], LastBlockHeight := 101, LastBlockAppHash := [] } }
      (sampleCommit 101) { BlockHeight := 100, Validators := [valA] } rfl rfl rfl rfl).1
      { ChainID := lit "chain-a", Height := 101, AppHash := [0xAA], Rest := [] } setA rfl rfl).1,
    ((consensus_state_query_payload sampleNewValidatorSet sampleContext (lit "ibc") sampleCodec []
      World.empty (sampleHistory.nodeAt 101)
      { Response := { Data := [], LastBlockHeight := 101, LastBlockAppHash := [] } }
      (sampleCommit 101) { BlockHeight := 100, Validators := [valA] } rfl rfl rfl rfl).1
      { ChainID := lit "chain-a", Height := 101, AppHash := [0xAA], Rest := [] } setA rfl rfl).2
      (by decide) (by decide)⟩

/-! ## Height arithmetic -/

/-- C10: for every LastBlockHeight `h` with `1 ≤ h ≤ 2^63 - 1` the `int64` computation
    `h - 1` does not wrap: it is the integer `h - 1`, non-negative and an `int64`.  For
    every non-negative `int64` height `H`, `uint64(H)` is numerically `H`; on `int64`
    the conversion changes the value exactly for negative heights.  Among the heights
    `0 ≤ h ≤ 2^63 - 1` only `h = 0` gives a negative lookup height, namely `-1`.  In
    the two commands: when the node reports such an `h ≥ 1`, the validators are looked
    up at the integer `h - 1`, and whenever the command prints, the printed consensus
    state carries the height of the commit unchanged when that height is a
    non-negative `int64`. -/
theorem height_arithmetic_exact :
    (∀ h : Int, 1 ≤ h → h ≤ 2 ^ 63 - 1 →
      subInt64 h 1 = h - 1 ∧ 0 ≤ subInt64 h 1 ∧ IsInt64 (subInt64 h 1))
    ∧ (∀ H : Int, 0 ≤ H → H < 2 ^ 63 → (uint64 H : Int) = H)
    ∧ (∀ H : Int, IsInt64 H → ((uint64 H : Int) ≠ H ↔ H < 0))
    ∧ (∀ h : Int, 0 ≤ h → h ≤ 2 ^ 63 - 1 → (subInt64 h 1 < 0 ↔ h = 0))
    ∧ subInt64 0 1 = -1
    ∧ (∀ (nvs : List tmtypes.Validator → Option tmtypes.ValidatorSet) (ctx : context.CLIContext)
        (storeKey : GoString) (cdc : codec.Codec) (args : List GoString) (w : World)
        (node : Node) (info : ctypes.ResultABCIInfo) (commit : ctypes.ResultCommit)
        (vals : ctypes.ResultValidators),
        ctx.GetNode = Except.ok node → node.ABCIInfo = Except.ok info →
        1 ≤ info.Response.LastBlockHeight → info.Response.LastBlockHeight ≤ 2 ^ 63 - 1 →
        node.Commit info.Response.LastBlockHeight = Except.ok commit →
        node.Validators (info.Response.LastBlockHeight - 1) = Except.ok vals →
        (runConsensusState nvs ctx storeKey cdc args w).2.calls
            = w.calls ++ [Call.getNode, Call.abciInfo, Call.commit info.Response.LastBlockHeight,
                Call.validators (info.Response.LastBlockHeight - 1)]
          ∧ ∀ (header : tmtypes.Header) (vs : tmtypes.ValidatorSet),
            commit.SignedHeader.Header = some header → nvs vals.Validators = some vs →
            0 ≤ header.Height → header.Height < 2 ^ 63 →
            runConsensusState nvs ctx storeKey cdc args w
              = printedOnce w
                  [Call.getNode, Call.abciInfo, Call.commit info.Response.LastBlockHeight,
                    Call.validators (info.Response.LastBlockHeight - 1)]
                  (cdc.MustMarshalJSONIndent (Payload.consensusState
                    { ChainID := header.ChainID
                      Height := header.Height.toNat
                      Root := merkle.NewRoot header.AppHash
                      NextValidatorSet := vs })))
    ∧ (∀ (nvs : List tmtypes.Validator → Option tmtypes.ValidatorSet) (ctx : context.CLIContext)
        (cdc : codec.Codec) (args : List GoString) (w : World)
        (node : Node) (info : ctypes.ResultABCIInfo) (commit : ctypes.ResultCommit)
        (vals nextvals : ctypes.ResultValidators),
        ctx.GetNode = Except.ok node → node.ABCIInfo = Except.ok info →
        1 ≤ info.Response.LastBlockHeight → info.Response.LastBlockHeight ≤ 2 ^ 63 - 1 →
        node.Commit info.Response.LastBlockHeight = Except.ok commit →
        node.Validators (info.Response.LastBlockHeight - 1) = Except.ok vals →
        node.Validators info.Response.LastBlockHeight = Except.ok nextvals →
        (runHeader nvs ctx cdc args w).2.calls
            = w.calls ++ [Call.getNode, Call.abciInfo, Call.commit info.Response.LastBlockHeight,
                Call.validators (info.Response.LastBlockHeight - 1),
                Call.validators info.Response.LastBlockHeight]
          ∧ ∀ vs ns : tmtypes.ValidatorSet,
            nvs vals.Validators = some vs → nvs nextvals.Validators = some ns →
            runHeader nvs ctx cdc args w
              = printedOnce w
                  [Call.getNode, Call.abciInfo, Call.commit info.Response.LastBlockHeight,
                    Call.validators (info.Response.LastBlockHeight - 1),
                    Call.validators info.Response.LastBlockHeight]
                  (cdc.MustMarshalJSONIndent (Payload.header
                    { SignedHeader := commit.SignedHeader
                      ValidatorSet := vs
                      NextValidatorSet := ns }))) := by
  refine ⟨?_, ?_, ?_, ?_, ?_, ?_, ?_⟩
  · intro h h1 h2
    have hx : subInt64 h 1 = h - 1 := subInt64_one_exact h (by omega) (by omega)
    refine ⟨hx, ?_, ?_⟩
    · omega
    · rw [hx]
      unfold IsInt64
      omega
  · intro H h1 h2
    exact uint64_of_nonneg H h1 h2
  · intro H hH
    unfold IsInt64 at hH
    constructor
    · intro hne
      by_contra hge
      exact hne (uint64_of_nonneg H (by omega) hH.2)
    · intro hneg
      rw [uint64_of_neg H hH.1 hneg]
      omega
  · intro h h1 h2
    have hx : subInt64 h 1 = h - 1 := subInt64_one_exact h (by omega) (by omega)
    rw [hx]
    omega
  · exact subInt64_one_exact 0 (by omega) (by omega)
  · intro nvs ctx storeKey cdc args w node info commit vals hnode hinfo h1 h2 hcommit hvals
    have hx : subInt64 info.Response.LastBlockHeight 1 = info.Response.LastBlockHeight - 1 :=
      subInt64_one_exact _ (by omega) (by omega)
    rw [← hx] at hvals
    constructor
    · rw [runConsensusState_calls nvs ctx storeKey cdc args w node info commit vals hnode hinfo
        hcommit hvals, hx]
    · intro header vs hheader hset hc1 hc2
      have hu : uint64 header.Height = header.Height.toNat := by
        have := uint64_of_nonneg header.Height hc1 hc2
        omega
      rw [runConsensusState_ok nvs ctx storeKey cdc args w node info commit vals header vs
        hnode hinfo hcommit hvals hheader hset, hx, hu]
  · intro nvs ctx cdc args w node info commit vals nextvals hnode hinfo h1 h2 hcommit hvals hnext
    have hx : subInt64 info.Response.LastBlockHeight 1 = info.Response.LastBlockHeight - 1 :=
      subInt64_one_exact _ (by omega) (by omega)
    rw [← hx] at hvals
    constructor
    · rw [runHeader_calls nvs ctx cdc args w node info commit vals nextvals hnode hinfo
        hcommit hvals hnext, hx]
    · intro vs ns hset hnset
      rw [runHeader_ok nvs ctx cdc args w node info commit vals nextvals vs ns hnode hinfo
        hcommit hvals hnext hset hnset, hx]

/-- Witness of C10 at the heights 101 and 0. -/
theorem height_arithmetic_exact_witness :
    (subInt64 101 1 = 101 - 1 ∧ 0 ≤ subInt64 101 1 ∧ IsInt64 (subInt64 101 1))
    ∧ (uint64 101 : Int) = 101
    ∧ (subInt64 0 1 < 0 ↔ (0 : Int) = 0) :=
  ⟨height_arithmetic_exact.1 101 (by decide) (by decide),
    height_arithmetic_exact.2.1 101 (by decide) (by decide),
    height_arithmetic_exact.2.2.2.1 0 (by decide) (by decide)⟩

/-! ## Errors of the three commands -/

theorem runConsensusState_not_returned (nvs : List tmtypes.Validator → Option tmtypes.ValidatorSet)
    (ctx : context.CLIContext) (storeKey : GoString) (cdc : codec.Codec)
    (args : List GoString) (w : World) (hok : consensusStateLookupsSucceed ctx) (e : Error) :
    (runConsensusState nvs ctx storeKey cdc args w).1 ≠ Except.error (Abort.returned e) := by
  obtain ⟨node, info, commit, vals, hn, hi, hc, hv⟩ := hok
  rcases hh : commit.SignedHeader.Header with _ | header
  · rw [runConsensusState_nil_header nvs ctx storeKey cdc args w node info commit vals
      hn hi hc hv hh]
    simp [panickedAfter]
  rcases hs : nvs vals.Validators with _ | vs
  · rw [runConsensusState_set_panic nvs ctx storeKey cdc args w node info commit vals
      hn hi hc hv hs]
    simp [panickedAfter]
  · rw [runConsensusState_ok nvs ctx storeKey cdc args w node info commit vals header vs
      hn hi hc hv hh hs]
    simp [printedOnce]

theorem runHeader_not_returned (nvs : List tmtypes.Validator → Option tmtypes.ValidatorSet)
    (ctx : context.CLIContext) (cdc : codec.Codec)
    (args : List GoString) (w : World) (hok : headerLookupsSucceed ctx) (e : Error) :
    (runHeader nvs ctx cdc args w).1 ≠ Except.error (Abort.returned e) := by
  obtain ⟨node, info, commit, vals, nextvals, hn, hi, hc, hv, hx⟩ := hok
  rcases hs : nvs vals.Validators with _ | vs
  · rw [runHeader_set_panic nvs ctx cdc args w node info commit vals nextvals
      hn hi hc hv hx (Or.inl hs)]
    simp [panickedAfter]
  rcases hns : nvs nextvals.Validators with _ | ns
  · rw [runHeader_set_panic nvs ctx cdc args w node info commit vals nextvals
      hn hi hc hv hx (Or.inr hns)]
    simp [panickedAfter]
  · rw [runHeader_ok nvs ctx cdc args w node info commit vals nextvals vs ns
      hn hi hc hv hx hs hns]
    simp [printedOnce]

/-- C4 (counterexample): two node states in which no lookup fails and the command
    neither returns (nil or an error) nor prints.  The `consensus-state` command on a
    node whose commit has a `nil` header pointer, and the `header` command on a node
    whose validator list at height 101 names one validator twice, both stop with a
    runtime panic after their lookups, with standard output empty. -/
theorem queries_panic_without_failed_lookup :
    consensusStateLookupsSucceed (contextOf (nilHeaderHistory.nodeAt 101))
    ∧ runConsensusState sampleNewValidatorSet (contextOf (nilHeaderHistory.nodeAt 101))
        (lit "ibc") sampleCodec [] World.empty
      = (Except.error Abort.panicked,
          { calls := [Call.getNode, Call.abciInfo, Call.commit 101, Call.validators 100],
            stdout := [] })
    ∧ headerLookupsSucceed (contextOf (duplicateHistory.nodeAt 101))
    ∧ sampleNewValidatorSet [valB, valB] = none
    ∧ runHeader sampleNewValidatorSet (contextOf (duplicateHistory.nodeAt 101)) sampleCodec []
        World.empty
      = (Except.error Abort.panicked,
          { calls := [Call.getNode, Call.abciInfo, Call.commit 101, Call.validators 100,
              Call.validators 101],
            stdout := [] }) := by
  refine ⟨⟨nilHeaderHistory.nodeAt 101,
      { Response := { Data := [], LastBlockHeight := 101, LastBlockAppHash := [] } },
      nilHeaderCommit, { BlockHeight := 100, Validators := [valA] }, rfl, rfl, rfl, rfl⟩,
    rfl,
    ⟨duplicateHistory.nodeAt 101,
      { Response := { Data := [], LastBlockHeight := 101, LastBlockAppHash := [] } },
      sampleCommit 101, { BlockHeight := 100, Validators := [valA] },
      { BlockHeight := 101, Validators := [valB, valB] }, rfl, rfl, rfl, rfl, rfl⟩,
    rfl, rfl⟩

/-- C4 (amended): error contract of the three commands, for every context and start
    world.  `connection` (run on its one argument `id`): it returns the error of the
    connection lookup when that lookup fails, having printed nothing, and otherwise
    returns no error and prints exactly the encoding of the record and one newline.
    `consensus-state` and `header`: the lookups are made in program order (node handle,
    ABCI info, commit, validators, and for `header` the next validators); when one fails
    the command returns that error, no later lookup is performed and nothing is printed.
    When none fails and building the payload does not panic (for `consensus-state`: the
    header pointer of the commit is not `nil` and `tmtypes.NewValidatorSet` returns a
    set; for `header`: `tmtypes.NewValidatorSet` returns a set for both validator
    lists), the command returns no error and prints exactly the encoding of its payload
    and one newline; when building the payload panics, the command stops after its
    lookups, returns neither nil nor an error and prints nothing.  Each command returns
    an error if and only if not all of its lookups succeed. -/
theorem queries_error_contract (nvs : List tmtypes.Validator → Option tmtypes.ValidatorSet)
    (ctx : context.CLIContext) (storeKey : GoString) (cdc : codec.Codec)
    (args : List GoString) (id : GoString) (w : World) :
    ((∀ e : Error,
        ctx.QueryConnection (lit "protocol") (defaultPath storeKey) id = Except.error e →
        runConnection ctx storeKey cdc [id] w
          = returnedError w [Call.connection (lit "protocol") (defaultPath storeKey) id] e)
      ∧ (∀ (conn : connection.Connection) (proof : merkle.Proof),
        ctx.QueryConnection (lit "protocol") (defaultPath storeKey) id = Except.ok (conn, proof) →
        runConnection ctx storeKey cdc [id] w
          = printedOnce w [Call.connection (lit "protocol") (defaultPath storeKey) id]
              (cdc.MustMarshalJSONIndent (Payload.connection conn)))
      ∧ ((∃ e : Error, (runConnection ctx storeKey cdc [id] w).1 = Except.error (Abort.returned e))
        ↔ ¬ ∃ (conn : connection.Connection) (proof : merkle.Proof),
            ctx.QueryConnection (lit "protocol") (defaultPath storeKey) id
              = Except.ok (conn, proof)))
    ∧ ((∀ e : Error, ctx.GetNode = Except.error e →
        runConsensusState nvs ctx storeKey cdc args w = returnedError w [Call.getNode] e)
      ∧ (∀ (node : Node) (e : Error),
        ctx.GetNode = Except.ok node → node.ABCIInfo = Except.error e →
        runConsensusState nvs ctx storeKey cdc args w
          = returnedError w [Call.getNode, Call.abciInfo] e)
      ∧ (∀ (node : Node) (info : ctypes.ResultABCIInfo) (e : Error),
        ctx.GetNode = Except.ok node → node.ABCIInfo = Except.ok info →
        node.Commit info.Response.LastBlockHeight = Except.error e →
        runConsensusState nvs ctx storeKey cdc args w
          = returnedError w
              [Call.getNode, Call.abciInfo, Call.commit info.Response.LastBlockHeight] e)
      ∧ (∀ (node : Node) (info : ctypes.ResultABCIInfo) (commit : ctypes.ResultCommit) (e : Error),
        ctx.GetNode = Except.ok node → node.ABCIInfo = Except.ok info →
        node.Commit info.Response.LastBlockHeight = Except.ok commit →
        node.Validators (subInt64 info.Response.LastBlockHeight 1) = Except.error e →
        runConsensusState nvs ctx storeKey cdc args w
          = returnedError w
              [Call.getNode, Call.abciInfo, Call.commit info.Response.LastBlockHeight,
                Call.validators (subInt64 info.Response.LastBlockHeight 1)] e)
      ∧ (∀ (node : Node) (info : ctypes.ResultABCIInfo) (commit : ctypes.ResultCommit)
          (vals : ctypes.ResultValidators) (header : tmtypes.Header) (vs : tmtypes.ValidatorSet),
        ctx.GetNode = Except.ok node → node.ABCIInfo = Except.ok info →
        node.Commit info.Response.LastBlockHeight = Except.ok commit →
        node.Validators (subInt64 info.Response.LastBlockHeight 1) = Except.ok vals →
        commit.SignedHeader.Header = some header → nvs vals.Validators = some vs →
        runConsensusState nvs ctx storeKey cdc args w
          = printedOnce w
              [Call.getNode, Call.abciInfo, Call.commit info.Response.LastBlockHeight,
                Call.validators (subInt64 info.Response.LastBlockHeight 1)]
              (cdc.MustMarshalJSONIndent (Payload.consensusState
                { ChainID := header.ChainID
                  Height := uint64 header.Height
                  Root := merkle.NewRoot header.AppHash
                  NextValidatorSet := vs })))
      ∧ (∀ (node : Node) (info : ctypes.ResultABCIInfo) (commit : ctypes.ResultCommit)
          (vals : ctypes.ResultValidators),
        ctx.GetNode = Except.ok node → node.ABCIInfo = Except.ok info →
        node.Commit info.Response.LastBlockHeight = Except.ok commit →
        node.Validators (subInt64 info.Response.LastBlockHeight 1) = Except.ok vals →
        (commit.SignedHeader.Header = none ∨ nvs vals.Validators = none) →
        runConsensusState nvs ctx storeKey cdc args w
          = panickedAfter w
              [Call.getNode, Call.abciInfo, Call.commit info.Response.LastBlockHeight,
                Call.validators (subInt64 info.Response.LastBlockHeight 1)])
      ∧ ((∃ e : Error,
            (runConsensusState nvs ctx storeKey cdc args w).1 = Except.error (Abort.returned e))
        ↔ ¬ consensusStateLookupsSucceed ctx))
    ∧ ((∀ e : Error, ctx.GetNode = Except.error e →
        runHeader nvs ctx cdc args w = returnedError w [Call.getNode] e)
      ∧ (∀ (node : Node) (e : Error),
        ctx.GetNode = Except.ok node → node.ABCIInfo = Except.error e →
        runHeader nvs ctx cdc args w = returnedError w [Call.getNode, Call.abciInfo] e)
      ∧ (∀ (node : Node) (info : ctypes.ResultABCIInfo) (e : Error),
        ctx.GetNode = Except.ok node → node.ABCIInfo = Except.ok info →
        node.Commit info.Response.LastBlockHeight = Except.error e →
        runHeader nvs ctx cdc args w
          = returnedError w
              [Call.getNode, Call.abciInfo, Call.commit info.Response.LastBlockHeight] e)
      ∧ (∀ (node : Node) (info : ctypes.ResultABCIInfo) (commit : ctypes.ResultCommit) (e : Error),
        ctx.GetNode = Except.ok node → node.ABCIInfo = Except.ok info →
        node.Commit info.Response.LastBlockHeight = Except.ok commit →
        node.Validators (subInt64 info.Response.LastBlockHeight 1) = Except.error e →
        runHeader nvs ctx cdc args w
          = returnedError w
              [Call.getNode, Call.abciInfo, Call.commit info.Response.LastBlockHeight,
                Call.validators (subInt64 info.Response.LastBlockHeight 1)] e)
      ∧ (∀ (node : Node) (info : ctypes.ResultABCIInfo) (commit : ctypes.ResultCommit)
          (vals : ctypes.ResultValidators) (e : Error),
        ctx.GetNode = Except.ok node → node.ABCIInfo = Except.ok info →
        node.Commit info.Response.LastBlockHeight = Except.ok commit →
        node.Validators (subInt64 info.Response.LastBlockHeight 1) = Except.ok vals →
        node.Validators info.Response.LastBlockHeight = Except.error e →
        runHeader nvs ctx cdc args w
          = returnedError w
              [Call.getNode, Call.abciInfo, Call.commit info.Response.LastBlockHeight,
                Call.validators (subInt64 info.Response.LastBlockHeight 1),
                Call.validators info.Response.LastBlockHeight] e)
      ∧ (∀ (node : Node) (info : ctypes.ResultABCIInfo) (commit : ctypes.ResultCommit)
          (vals nextvals : ctypes.ResultValidators) (vs ns : tmtypes.ValidatorSet),
        ctx.GetNode = Except.ok node → node.ABCIInfo = Except.ok info →
        node.Commit info.Response.LastBlockHeight = Except.ok commit →
        node.Validators (subInt64 info.Response.LastBlockHeight 1) = Except.ok vals →
        node.Validators info.Response.LastBlockHeight = Except.ok nextvals →
        nvs vals.Validators = some vs → nvs nextvals.Validators = some ns →
        runHeader nvs ctx cdc args w
          = printedOnce w
              [Call.getNode, Call.abciInfo, Call.commit info.Response.LastBlockHeight,
                Call.validators (subInt64 info.Response.LastBlockHeight 1),
                Call.validators info.Response.LastBlockHeight]
              (cdc.MustMarshalJSONIndent (Payload.header
                { SignedHeader := commit.SignedHeader
                  ValidatorSet := vs
                  NextValidatorSet := ns })))
      ∧ (∀ (node : Node) (info : ctypes.ResultABCIInfo) (commit : ctypes.ResultCommit)
          (vals nextvals : ctypes.ResultValidators),
        ctx.GetNode = Except.ok node → node.ABCIInfo = Except.ok info →
        node.Commit info.Response.LastBlockHeight = Except.ok commit →
        node.Validators (subInt64 info.Response.LastBlockHeight 1) = Except.ok vals →
        node.Validators info.Response.LastBlockHeight = Except.ok nextvals →
        (nvs vals.Validators = none ∨ nvs nextvals.Validators = none) →
        runHeader nvs ctx cdc args w
          = panickedAfter w
              [Call.getNode, Call.abciInfo, Call.commit info.Response.LastBlockHeight,
                Call.validators (subInt64 info.Response.LastBlockHeight 1),
                Call.validators info.Response.LastBlockHeight])
      ∧ ((∃ e : Error, (runHeader nvs ctx cdc args w).1 = Except.error (Abort.returned e))
        ↔ ¬ headerLookupsSucceed ctx)) := by
  refine ⟨⟨?_, ?_, ?_⟩, ⟨?_, ?_, ?_, ?_, ?_, ?_, ?_⟩, ⟨?_, ?_, ?_, ?_, ?_, ?_, ?_, ?_⟩⟩
  · intro e hq
    exact runConnection_lookup_error ctx storeKey cdc id w e hq
  · intro conn proof hq
    exact runConnection_ok ctx storeKey cdc id w conn proof hq
  · rcases hq : ctx.QueryConnection (lit "protocol") (defaultPath storeKey) id with e | ⟨conn, proof⟩
    · rw [runConnection_lookup_error ctx storeKey cdc id w e hq]
      simp [returnedError]
    · rw [runConnection_ok ctx storeKey cdc id w conn proof hq]
      simp [printedOnce]
  · intro e hn
    exact runConsensusState_getNode_error nvs ctx storeKey cdc args w e hn
  · intro node e hn hi
    exact runConsensusState_abciInfo_error nvs ctx storeKey cdc args w node e hn hi
  · intro node info e hn hi hc
    exact runConsensusState_commit_error nvs ctx storeKey cdc args w node info e hn hi hc
  · intro node info commit e hn hi hc hv
    exact runConsensusState_validators_error nvs ctx storeKey cdc args w node info commit e
      hn hi hc hv
  · intro node info commit vals header vs hn hi hc hv hh hs
    exact runConsensusState_ok nvs ctx storeKey cdc args w node info commit vals header vs
      hn hi hc hv hh hs
  · intro node info commit vals hn hi hc hv hp
    rcases hp with hh | hs
    · exact runConsensusState_nil_header nvs ctx storeKey cdc args w node info commit vals
        hn hi hc hv hh
    · exact runConsensusState_set_panic nvs ctx storeKey cdc args w node info commit vals
        hn hi hc hv hs
  · rcases hn : ctx.GetNode with e | node
    · rw [runConsensusState_getNode_error nvs ctx storeKey cdc args w e hn]
      simp [returnedError, consensusStateLookupsSucceed, hn]
    rcases hi : node.ABCIInfo with e | info
    · rw [runConsensusState_abciInfo_error nvs ctx storeKey cdc args w node e hn hi]
      simp [returnedError, consensusStateLookupsSucceed, hn, hi]
    rcases hc : node.Commit info.Response.LastBlockHeight with e | commit
    · rw [runConsensusState_commit_error nvs ctx storeKey cdc args w node info e hn hi hc]
      simp [returnedError, consensusStateLookupsSucceed, hn, hi, hc]
    rcases hv : node.Validators (subInt64 info.Response.LastBlockHeight 1) with e | vals
    · rw [runConsensusState_validators_error nvs ctx storeKey cdc args w node info commit e
        hn hi hc hv]
      simp [returnedError, consensusStateLookupsSucceed, hn, hi, hc, hv]
    · have hok : consensusStateLookupsSucceed ctx := ⟨node, info, commit, vals, hn, hi, hc, hv⟩
      constructor
      · rintro ⟨e, he⟩
        exact absurd he (runConsensusState_not_returned nvs ctx storeKey cdc args w hok e)
      · intro hnot
        exact absurd hok hnot
  · intro e hn
    exact runHeader_getNode_error nvs ctx cdc args w e hn
  · intro node e hn hi
    exact runHeader_abciInfo_error nvs ctx cdc args w node e hn hi
  · intro node info e hn hi hc
    exact runHeader_commit_error nvs ctx cdc args w node info e hn hi hc
  · intro node info commit e hn hi hc hv
    exact runHeader_validators_error nvs ctx cdc args w node info commit e hn hi hc hv
  · intro node info commit vals e hn hi hc hv hx
    exact runHeader_nextvalidators_error nvs ctx cdc args w node info commit vals e hn hi hc hv hx
  · intro node info commit vals nextvals vs ns hn hi hc hv hx hs hns
    exact runHeader_ok nvs ctx cdc args w node info commit vals nextvals vs ns
      hn hi hc hv hx hs hns
  · intro node info commit vals nextvals hn hi hc hv hx hp
    exact runHeader_set_panic nvs ctx cdc args w node info commit vals nextvals
      hn hi hc hv hx hp
  · rcases hn : ctx.GetNode with e | node
    · rw [runHeader_getNode_error nvs ctx cdc args w e hn]
      simp [returnedError, headerLookupsSucceed, hn]
    rcases hi : node.ABCIInfo with e | info
    · rw [runHeader_abciInfo_error nvs ctx cdc args w node e hn hi]
      simp [returnedError, headerLookupsSucceed, hn, hi]
    rcases hc : node.Commit info.Response.LastBlockHeight with e | commit
    · rw [runHeader_commit_error nvs ctx cdc args w node info e hn hi hc]
      simp [returnedError, headerLookupsSucceed, hn, hi, hc]
    rcases hv : node.Validators (subInt64 info.Response.LastBlockHeight 1) with e | vals
    · rw [runHeader_validators_error nvs ctx cdc args w node info commit e hn hi hc hv]
      simp [returnedError, headerLookupsSucceed, hn, hi, hc, hv]
    rcases hx : node.Validators info.Response.LastBlockHeight with e | nextvals
    · rw [runHeader_nextvalidators_error nvs ctx cdc args w node info commit vals e
        hn hi hc hv hx]
      simp [returnedError, headerLookupsSucceed, hn, hi, hc, hv, hx]
    · have hok : headerLookupsSucceed ctx :=
        ⟨node, info, commit, vals, nextvals, hn, hi, hc, hv, hx⟩
      constructor
      · rintro ⟨e, he⟩
        exact absurd he (runHeader_not_returned nvs ctx cdc args w hok e)
      · intro hnot
        exact absurd hok hnot

/-- Witness of C4 (amended) on the example chain: the `consensus-state` command at
    latest height 103, whose commit lookup fails; the `header` command at latest height
    101, whose lookups succeed and whose payload is built; the `connection` command on
    an identifier the store does not hold. -/
theorem queries_error_contract_witness :
    runConsensusState sampleNewValidatorSet (contextOf (sampleHistory.nodeAt 103)) (lit "ibc")
        sampleCodec [] World.empty
      = returnedError World.empty [Call.getNode, Call.abciInfo, Call.commit 103]
          (Error.rpc "height is not available")
    ∧ runHeader sampleNewValidatorSet (contextOf (sampleHistory.nodeAt 101)) sampleCodec []
        World.empty
      = printedOnce World.empty
          [Call.getNode, Call.abciInfo, Call.commit 101, Call.validators 100, Call.validators 101]
          (sampleCodec.MustMarshalJSONIndent (Payload.header (sampleHeader101 setA setB)))
    ∧ runConnection sampleContext (lit "ibc") sampleCodec [lit "connection-9"] World.empty
      = returnedError World.empty
          [Call.connection (lit "protocol") (defaultPath (lit "ibc")) (lit "connection-9")]
          (Error.rpc "connection not found") :=
  ⟨(queries_error_contract sampleNewValidatorSet (contextOf (sampleHistory.nodeAt 103))
      (lit "ibc") sampleCodec [] (lit "connection-9") World.empty).2.1.2.2.1
      (sampleHistory.nodeAt 103)
      { Response := { Data := [], LastBlockHeight := 103, LastBlockAppHash := [] } }
      (Error.rpc "height is not available") rfl rfl rfl,
    (queries_error_contract sampleNewValidatorSet (contextOf (sampleHistory.nodeAt 101))
      (lit "ibc") sampleCodec [] (lit "connection-9") World.empty).2.2.2.2.2.2.2.1
      (sampleHistory.nodeAt 101)
      { Response := { Data := [], LastBlockHeight := 101, LastBlockAppHash := [] } }
      (sampleCommit 101) { BlockHeight := 100, Validators := [valA] }
      { BlockHeight := 101, Validators := [valB] } setA setB rfl rfl rfl rfl rfl rfl rfl,
    (queries_error_contract sampleNewValidatorSet sampleContext
      (lit "ibc") sampleCodec [] (lit "connection-9") World.empty).1.1
      (Error.rpc "connection not found") rfl⟩

/-! ## One fixed height -/

/-- C8: the `consensus-state` and `header` commands observe the node at one height.
    For two contexts whose nodes report the same LastBlockHeight `h` and agree on the
    commit at `h` and on the validators at `h - 1` and at `h` (the `int64` subtraction
    of the source), each command gives the same result (return value, lookups, output)
    on both, whatever the nodes hold at other heights.  After the node handle and the
    one ABCI info lookup, the remaining lookups of a run are an initial part of: commit
    at `h`, validators at `h - 1` (and, for `header`, validators at `h`). -/
theorem queries_pinned_to_one_height (nvs : List tmtypes.Validator → Option tmtypes.ValidatorSet)
    (storeKey : GoString) (cdc : codec.Codec) (args : List GoString) (w : World)
    (ctx1 ctx2 : context.CLIContext) (node1 node2 : Node) (info1 info2 : ctypes.ResultABCIInfo)
    (h : Int)
    (hnode1 : ctx1.GetNode = Except.ok node1) (hnode2 : ctx2.GetNode = Except.ok node2)
    (hinfo1 : node1.ABCIInfo = Except.ok info1) (hinfo2 : node2.ABCIInfo = Except.ok info2)
    (hh1 : info1.Response.LastBlockHeight = h) (hh2 : info2.Response.LastBlockHeight = h)
    (hcommit : node1.Commit h = node2.Commit h)
    (hvals : node1.Validators (subInt64 h 1) = node2.Validators (subInt64 h 1))
    (hnext : node1.Validators h = node2.Validators h) :
    runConsensusState nvs ctx1 storeKey cdc args w = runConsensusState nvs ctx2 storeKey cdc args w
    ∧ runHeader nvs ctx1 cdc args w = runHeader nvs ctx2 cdc args w
    ∧ (∃ rest : List Call,
        (runConsensusState nvs ctx1 storeKey cdc args w).2.calls
          = w.calls ++ [Call.getNode, Call.abciInfo] ++ rest
        ∧ rest <+: [Call.commit h, Call.validators (subInt64 h 1)])
    ∧ (∃ rest : List Call,
        (runHeader nvs ctx1 cdc args w).2.calls
          = w.calls ++ [Call.getNode, Call.abciInfo] ++ rest
        ∧ rest <+: [Call.commit h, Call.validators (subInt64 h 1), Call.validators h]) := by
  subst hh1
  refine ⟨?_, ?_, ?_, ?_⟩
  · exact runConsensusState_congr nvs storeKey cdc args w ctx1 ctx2 node1 node2 info1 info2
      hnode1 hnode2 hinfo1 hinfo2 hh2 hcommit hvals
  · exact runHeader_congr nvs cdc args w ctx1 ctx2 node1 node2 info1 info2
      hnode1 hnode2 hinfo1 hinfo2 hh2 hcommit hvals hnext
  · rcases hc : node1.Commit info1.Response.LastBlockHeight with e | commit
    · rw [runConsensusState_commit_error nvs ctx1 storeKey cdc args w node1 info1 e hnode1 hinfo1 hc]
      exact ⟨[Call.commit info1.Response.LastBlockHeight], by simp [returnedError], by simp⟩
    rcases hv : node1.Validators (subInt64 info1.Response.LastBlockHeight 1) with e | vals
    · rw [runConsensusState_validators_error nvs ctx1 storeKey cdc args w node1 info1 commit e
          hnode1 hinfo1 hc hv]
      exact ⟨_, by simp [returnedError], List.prefix_refl _⟩
    · rw [runConsensusState_calls nvs ctx1 storeKey cdc args w node1 info1 commit vals
          hnode1 hinfo1 hc hv]
      exact ⟨_, by simp, List.prefix_refl _⟩
  · rcases hc : node1.Commit info1.Response.LastBlockHeight with e | commit
    · rw [runHeader_commit_error nvs ctx1 cdc args w node1 info1 e hnode1 hinfo1 hc]
      exact ⟨[Call.commit info1.Response.LastBlockHeight], by simp [returnedError], by simp⟩
    rcases hv : node1.Validators (subInt64 info1.Response.LastBlockHeight 1) with e | vals
    · rw [runHeader_validators_error nvs ctx1 cdc args w node1 info1 commit e
          hnode1 hinfo1 hc hv]
      exact ⟨[Call.commit info1.Response.LastBlockHeight,
        Call.validators (subInt64 info1.Response.LastBlockHeight 1)],
        by simp [returnedError], by simp⟩
    rcases hx : node1.Validators info1.Response.LastBlockHeight with e | nextvals
    · rw [runHeader_nextvalidators_error nvs ctx1 cdc args w node1 info1 commit vals e
          hnode1 hinfo1 hc hv hx]
      exact ⟨_, by simp [returnedError], List.prefix_refl _⟩
    · rw [runHeader_calls nvs ctx1 cdc args w node1 info1 commit vals nextvals
          hnode1 hinfo1 hc hv hx]
      exact ⟨_, by simp, List.prefix_refl _⟩

/-- Witness of C8: the two example chains at latest height 101 agree on the commit at
    101 and on the validators at 100 and 101, and differ at the heights 99, 102, 103. -/
theorem queries_pinned_to_one_height_witness :
    runConsensusState sampleNewValidatorSet (contextOf (sampleHistory.nodeAt 101)) (lit "ibc")
        sampleCodec [] World.empty
      = runConsensusState sampleNewValidatorSet (contextOf (otherHistory.nodeAt 101)) (lit "ibc")
        sampleCodec [] World.empty
    ∧ runHeader sampleNewValidatorSet (contextOf (sampleHistory.nodeAt 101)) sampleCodec []
        World.empty
      = runHeader sampleNewValidatorSet (contextOf (otherHistory.nodeAt 101)) sampleCodec []
        World.empty
    ∧ sampleHistory.Validators 102 ≠ otherHistory.Validators 102 :=
  ⟨(queries_pinned_to_one_height sampleNewValidatorSet (lit "ibc") sampleCodec [] World.empty
      (contextOf (sampleHistory.nodeAt 101)) (contextOf (otherHistory.nodeAt 101))
      (sampleHistory.nodeAt 101) (otherHistory.nodeAt 101)
      { Response := { Data := [], LastBlockHeight := 101, LastBlockAppHash := [] } }
      { Response := { Data := [], LastBlockHeight := 101, LastBlockAppHash := [] } }
      101 rfl rfl rfl rfl rfl rfl rfl rfl rfl).1,
    (queries_pinned_to_one_height sampleNewValidatorSet (lit "ibc") sampleCodec [] World.empty
      (contextOf (sampleHistory.nodeAt 101)) (contextOf (otherHistory.nodeAt 101))
      (sampleHistory.nodeAt 101) (otherHistory.nodeAt 101)
      { Response := { Data := [], LastBlockHeight := 101, LastBlockAppHash := [] } }
      { Response := { Data := [], LastBlockHeight := 101, LastBlockAppHash := [] } }
      101 rfl rfl rfl rfl rfl rfl rfl rfl rfl).2.1,
    by simp [sampleHistory, otherHistory, valA, valB]⟩

/-! ## The two commands against the Client Manager -/

/-- C3 (the code differs from the claim): on the example chain at latest height 101,
    where the validators at height 100 and at height 101 give different validator
    sets, both commands succeed, and the consensus state printed by `consensus-state` is
    not the consensus state `update_client` derives from the header printed by
    `header`.  Chain id, height and root agree; the next_validator_set printed by
    `consensus-state` is the validator_set of the header (validators at `h - 1`), not
    its next_validator_set (validators at `h`). -/
theorem consensus_state_query_differs_from_update_client
    (nvs : List tmtypes.Validator → Option tmtypes.ValidatorSet) (storeKey : GoString)
    (cdc : codec.Codec) (args : List GoString) (w : World) (sA sB : tmtypes.ValidatorSet)
    (hA : nvs [valA] = some sA) (hB : nvs [valB] = some sB) (hne : sA ≠ sB) :
    runConsensusState nvs (contextOf (sampleHistory.nodeAt 101)) storeKey cdc args w
      = printedOnce w [Call.getNode, Call.abciInfo, Call.commit 101, Call.validators 100]
          (cdc.MustMarshalJSONIndent (Payload.consensusState (sampleConsensusState sA)))
    ∧ runHeader nvs (contextOf (sampleHistory.nodeAt 101)) cdc args w
      = printedOnce w
          [Call.getNode, Call.abciInfo, Call.commit 101, Call.validators 100, Call.validators 101]
          (cdc.MustMarshalJSONIndent (Payload.header (sampleHeader101 sA sB)))
    ∧ some (sampleConsensusState sA) ≠ deriveConsensusState (sampleHeader101 sA sB)
    ∧ (∃ derived : tendermint.ConsensusState,
        deriveConsensusState (sampleHeader101 sA sB) = some derived
        ∧ (sampleConsensusState sA).ChainID = derived.ChainID
        ∧ (sampleConsensusState sA).Height = derived.Height
        ∧ (sampleConsensusState sA).Root = derived.Root
        ∧ (sampleConsensusState sA).NextValidatorSet ≠ derived.NextValidatorSet)
    ∧ (sampleConsensusState sA).NextValidatorSet = (sampleHeader101 sA sB).ValidatorSet
    ∧ (sampleConsensusState sA).NextValidatorSet ≠ (sampleHeader101 sA sB).NextValidatorSet := by
  refine ⟨?_, ?_, ?_, ⟨_, rfl, rfl, rfl, rfl, hne⟩, rfl, hne⟩
  · exact runConsensusState_ok nvs (contextOf (sampleHistory.nodeAt 101)) storeKey cdc args w
      (sampleHistory.nodeAt 101)
      { Response := { Data := [], LastBlockHeight := 101, LastBlockAppHash := [] } }
      (sampleCommit 101) { BlockHeight := 100, Validators := [valA] }
      { ChainID := lit "chain-a", Height := 101, AppHash := [0xAA], Rest := [] } sA
      rfl rfl rfl rfl rfl hA
  · exact runHeader_ok nvs (contextOf (sampleHistory.nodeAt 101)) cdc args w
      (sampleHistory.nodeAt 101)
      { Response := { Data := [], LastBlockHeight := 101, LastBlockAppHash := [] } }
      (sampleCommit 101) { BlockHeight := 100, Validators := [valA] }
      { BlockHeight := 101, Validators := [valB] } sA sB rfl rfl rfl rfl rfl hA hB
  · intro h
    have h2 : deriveConsensusState (sampleHeader101 sA sB)
        = some { sampleConsensusState sA with NextValidatorSet := sB } := rfl
    rw [h2] at h
    exact hne (congrArg tendermint.ConsensusState.NextValidatorSet (Option.some.inj h))

/-- Witness of C3 with the example validator-set constructor and encoder. -/
theorem consensus_state_query_differs_from_update_client_witness :
    runConsensusState sampleNewValidatorSet (contextOf (sampleHistory.nodeAt 101)) (lit "ibc")
        sampleCodec [] World.empty
      = printedOnce World.empty [Call.getNode, Call.abciInfo, Call.commit 101, Call.validators 100]
          (sampleCodec.MustMarshalJSONIndent
            (Payload.consensusState (sampleConsensusState setA)))
    ∧ some (sampleConsensusState setA) ≠ deriveConsensusState (sampleHeader101 setA setB) :=
  ⟨(consensus_state_query_differs_from_update_client sampleNewValidatorSet (lit "ibc")
      sampleCodec [] World.empty setA setB rfl rfl (by decide)).1,
    (consensus_state_query_differs_from_update_client sampleNewValidatorSet (lit "ibc")
      sampleCodec [] World.empty setA setB rfl rfl (by decide)).2.2.1⟩

/-- C9 (the code differs from the claim): on the example chain, where the validators at
    height 100 and at height 101 give different validator sets, the consensus state
    printed by `consensus-state` at latest height 101 and the header printed by `header`
    at latest height 102 do not satisfy the trust-chaining rule: the validator_set of the
    header (validators at 101) is not the next_validator_set of the consensus state
    (validators at 100). -/
theorem queries_break_trust_chaining
    (nvs : List tmtypes.Validator → Option tmtypes.ValidatorSet) (storeKey : GoString)
    (cdc : codec.Codec) (args : List GoString) (w w2 : World) (sA sB : tmtypes.ValidatorSet)
    (hA : nvs [valA] = some sA) (hB : nvs [valB] = some sB) (hne : sA ≠ sB) :
    runConsensusState nvs (contextOf (sampleHistory.nodeAt 101)) storeKey cdc args w
      = printedOnce w [Call.getNode, Call.abciInfo, Call.commit 101, Call.validators 100]
          (cdc.MustMarshalJSONIndent (Payload.consensusState (sampleConsensusState sA)))
    ∧ runHeader nvs (contextOf (sampleHistory.nodeAt 102)) cdc args w2
      = printedOnce w2
          [Call.getNode, Call.abciInfo, Call.commit 102, Call.validators 101, Call.validators 102]
          (cdc.MustMarshalJSONIndent (Payload.header (sampleHeader102 sB sB)))
    ∧ (sampleHeader102 sB sB).ValidatorSet ≠ (sampleConsensusState sA).NextValidatorSet
    ∧ trustChained (sampleConsensusState sA) (sampleHeader102 sB sB) = false := by
  have hne2 : (sampleHeader102 sB sB).ValidatorSet ≠ (sampleConsensusState sA).NextValidatorSet :=
    fun h => hne h.symm
  refine ⟨?_, ?_, hne2, ?_⟩
  · exact runConsensusState_ok nvs (contextOf (sampleHistory.nodeAt 101)) storeKey cdc args w
      (sampleHistory.nodeAt 101)
      { Response := { Data := [], LastBlockHeight := 101, LastBlockAppHash := [] } }
      (sampleCommit 101) { BlockHeight := 100, Validators := [valA] }
      { ChainID := lit "chain-a", Height := 101, AppHash := [0xAA], Rest := [] } sA
      rfl rfl rfl rfl rfl hA
  · exact runHeader_ok nvs (contextOf (sampleHistory.nodeAt 102)) cdc args w2
      (sampleHistory.nodeAt 102)
      { Response := { Data := [], LastBlockHeight := 102, LastBlockAppHash := [] } }
      (sampleCommit 102) { BlockHeight := 101, Validators := [valB] }
      { BlockHeight := 102, Validators := [valB] } sB sB rfl rfl rfl rfl rfl hB hB
  · simp only [trustChained, decide_eq_false_iff_not]
    exact hne2

/-- Witness of C9 with the example validator-set constructor and encoder. -/
theorem queries_break_trust_chaining_witness :
    runHeader sampleNewValidatorSet (contextOf (sampleHistory.nodeAt 102)) sampleCodec []
        World.empty
      = printedOnce World.empty
          [Call.getNode, Call.abciInfo, Call.commit 102, Call.validators 101, Call.validators 102]
          (sampleCodec.MustMarshalJSONIndent (Payload.header (sampleHeader102 setB setB)))
    ∧ trustChained (sampleConsensusState setA) (sampleHeader102 setB setB) = false :=
  ⟨(queries_break_trust_chaining sampleNewValidatorSet (lit "ibc") sampleCodec []
      World.empty World.empty setA setB rfl rfl (by decide)).2.1,
    (queries_break_trust_chaining sampleNewValidatorSet (lit "ibc") sampleCodec []
      World.empty World.empty setA setB rfl rfl (by decide)).2.2.2⟩

/-- X1: at one latest height `h` at which the lookups of both commands succeed and both
    commands print, the consensus state printed by `consensus-state` has the chain id,
    the height (as `uint64`) and the app hash of the block header in the signed header
    printed by `header`, and its next_validator_set is the validator_set of that
    header: both are built from the validators the node returns for `h - 1`. -/
theorem consensus_state_matches_header_validator_set
    (nvs : List tmtypes.Validator → Option tmtypes.ValidatorSet) (ctx : context.CLIContext)
    (storeKey : GoString) (cdc : codec.Codec) (args : List GoString) (w : World)
    (node : Node) (info : ctypes.ResultABCIInfo) (commit : ctypes.ResultCommit)
    (vals nextvals : ctypes.ResultValidators) (header : tmtypes.Header)
    (vs ns : tmtypes.ValidatorSet)
    (hnode : ctx.GetNode = Except.ok node)
    (hinfo : node.ABCIInfo = Except.ok info)
    (hcommit : node.Commit info.Response.LastBlockHeight = Except.ok commit)
    (hvals : node.Validators (subInt64 info.Response.LastBlockHeight 1) = Except.ok vals)
    (hnext : node.Validators info.Response.LastBlockHeight = Except.ok nextvals)
    (hheader : commit.SignedHeader.Header = some header)
    (hset : nvs vals.Validators = some vs)
    (hnset : nvs nextvals.Validators = some ns) :
    ∃ (s : tendermint.ConsensusState) (hd : tendermint.Header),
      (runConsensusState nvs ctx storeKey cdc args w).2.stdout
        = w.stdout ++ cdc.MustMarshalJSONIndent (Payload.consensusState s) ++ lit "\n"
      ∧ (runHeader nvs ctx cdc args w).2.stdout
        = w.stdout ++ cdc.MustMarshalJSONIndent (Payload.header hd) ++ lit "\n"
      ∧ s = { ChainID := header.ChainID
              Height := uint64 header.Height
              Root := merkle.NewRoot header.AppHash
              NextValidatorSet := vs }
      ∧ hd = { SignedHeader := commit.SignedHeader
               ValidatorSet := vs
               NextValidatorSet := ns }
      ∧ hd.SignedHeader.Header = some header
      ∧ s.NextValidatorSet = hd.ValidatorSet := by
  refine ⟨_, _, ?_, ?_, rfl, rfl, hheader, rfl⟩
  · rw [runConsensusState_ok nvs ctx storeKey cdc args w node info commit vals header vs
      hnode hinfo hcommit hvals hheader hset]
    rfl
  · rw [runHeader_ok nvs ctx cdc args w node info commit vals nextvals vs ns
      hnode hinfo hcommit hvals hnext hset hnset]
    rfl

/-- Witness of X1 on the example chain at latest height 101. -/
theorem consensus_state_matches_header_validator_set_witness :
    ∃ (s : tendermint.ConsensusState) (hd : tendermint.Header),
      (runConsensusState sampleNewValidatorSet sampleContext (lit "ibc") sampleCodec []
          World.empty).2.stdout
        = World.empty.stdout ++ sampleCodec.MustMarshalJSONIndent (Payload.consensusState s)
            ++ lit "\n"
      ∧ (runHeader sampleNewValidatorSet sampleContext sampleCodec [] World.empty).2.stdout
        = World.empty.stdout ++ sampleCodec.MustMarshalJSONIndent (Payload.header hd) ++ lit "\n"
      ∧ s = { ChainID := lit "chain-a"
              Height := uint64 101
              Root := merkle.NewRoot [0xAA]
              NextValidatorSet := setA }
      ∧ hd = { SignedHeader := (sampleCommit 101).SignedHeader
               ValidatorSet := setA
               NextValidatorSet := setB }
      ∧ hd.SignedHeader.Header
          = some { ChainID := lit "chain-a", Height := 101, AppHash := [0xAA], Rest := [] }
      ∧ s.NextValidatorSet = hd.ValidatorSet :=
  consensus_state_matches_header_validator_set sampleNewValidatorSet sampleContext (lit "ibc")
    sampleCodec [] World.empty (sampleHistory.nodeAt 101)
    { Response := { Data := [], LastBlockHeight := 101, LastBlockAppHash := [] } }
    (sampleCommit 101) { BlockHeight := 100, Validators := [valA] }
    { BlockHeight := 101, Validators := [valB] }
    { ChainID := lit "chain-a", Height := 101, AppHash := [0xAA], Rest := [] } setA setB
    rfl rfl rfl rfl rfl rfl rfl rfl

end Ibc
